import Mathlib

/-!
# vra-crd: the VirtualMachine reconciler

A shallow embedding of `controllers/virtualmachine_controller.go` and of the
record types of `api/v1alpha1/virtualmachine_types.go`.

One call of `Reconcile` is a function of the record that `r.Get` fetched and of
a `World`: the answers the external provisioning service and the resource
store give to the calls of that pass.  The pass threads the in-memory record,
the persisted record and the list of calls it issued; a nil dereference or an
index out of range ends the pass as `Ret.panicked`.

Go strings are `String`, pointers are `Option`, `int64` is `Int`, an `error`
is the text of its `Error()`.
-/

namespace VraCrd

/-! ## Records (api/v1alpha1/virtualmachine_types.go) -/

/-- The Go type `StatusPhase`, a string. -/
abbrev StatusPhase := String

def RunningStatusPhase : StatusPhase := "RUNNING"
def CreatingStatusPhase : StatusPhase := "CREATING"
def PendingStatusPhase : StatusPhase := "PENDING"
def ErrorStatusPhase : StatusPhase := "ERROR"
def InProgressStatusPhase : StatusPhase := "INPROGRESS"

structure Constraint where
  Mandatory : Bool
  Expression : String
deriving DecidableEq, Repr

structure Tag where
  Key : String
  Value : String
deriving DecidableEq, Repr

/-- The SDK type `models.MachineBootConfig`: the cloud config text. -/
structure MachineBootConfig where
  Content : String
deriving DecidableEq, Repr

/-- The Go struct `VirtualMachineSpec`, field by field. -/
structure VirtualMachineSpec where
  Href : String
  Address : String
  BootConfig : Option MachineBootConfig
  CloudAccountIds : List String
  CreatedAt : String
  CustomProperties : List (String × String)
  DeploymentID : String
  Description : String
  ExternalID : String
  ExternalRegionID : Option String
  ExternalZoneID : Option String
  Hostname : String
  ID : Option String
  OrgID : String
  OrganizationID : String
  Owner : String
  PowerState : Option String
  ProjectID : String
  UpdatedAt : String
  Flavor : String
  Image : String
  Constraints : List Constraint
  Tags : List Tag
deriving DecidableEq, Repr

/-- The Go struct `VirtualMachineStatus`. -/
structure VirtualMachineStatus where
  Phase : StatusPhase
  LastMessage : String
  ExternalRequestID : String
  ExternalID : String
deriving DecidableEq, Repr

/-- The Go struct `VirtualMachine`: the parts of `ObjectMeta` the controller
reads or writes (name, namespace, deletion timestamp, finalizers), `Spec` and
`Status`.  A deletion timestamp is `none` (nil) or a number of ticks since the
zero instant. -/
structure VirtualMachine where
  Name : String
  Namespace : String
  DeletionTimestamp : Option Nat
  Finalizers : List String
  Spec : VirtualMachineSpec
  Status : VirtualMachineStatus
deriving DecidableEq, Repr

/-- The method `IsZero` of `*metav1.Time`: a nil pointer or the zero instant. -/
def IsZero : Option Nat → Bool
  | none => true
  | some t => t == 0

/-! ## What the SDK returns -/

/-- The fields of the SDK type `models.Machine` that line 203-219 and 227 read;
their types are those of the `Spec` fields they are assigned to. -/
structure Machine where
  Address : String
  BootConfig : Option MachineBootConfig
  CloudAccountIds : List String
  CreatedAt : String
  CustomProperties : List (String × String)
  DeploymentID : String
  Description : String
  ExternalID : String
  ExternalRegionID : Option String
  ExternalZoneID : Option String
  Hostname : String
  ID : Option String
  OrgID : String
  Owner : String
  PowerState : Option String
  ProjectID : String
  UpdatedAt : String
deriving DecidableEq, Repr

/-- The payload of `GetMachines`: `TotalElements` (int64) and `Content`, a
slice of pointers. -/
structure MachineResult where
  TotalElements : Int
  Content : List (Option Machine)
deriving DecidableEq, Repr

/-- The payload of `GetRequestTracker`: `Status` is a pointer, `Message` a
string. -/
structure RequestTracker where
  Status : Option String
  Message : String
deriving DecidableEq, Repr

def RequestTrackerStatusFAILED : String := "FAILED"
def RequestTrackerStatusINPROGRESS : String := "INPROGRESS"
def RequestTrackerStatusFINISHED : String := "FINISHED"

/-! ## Constants, results, calls -/

def virtualMachineFinalizer : String := "virtualmachine.machine.cmbu.local/finalizer"

/-- The constant `defaultRequeue`, `20 * time.Second`, in nanoseconds. -/
def defaultRequeue : Nat := 20 * 1000000000

/-- The type `ctrl.Result`. -/
structure Result where
  Requeue : Bool
  RequeueAfter : Nat
deriving DecidableEq, Repr

/-- The value `ctrl.Result{}`. -/
def Result.empty : Result := ⟨false, 0⟩

/-- The three places where `Reconcile` writes the record itself: line 146,
line 158 and line 221. -/
inductive UpdateSite
  | removeFinalizer
  | addFinalizer
  | mirrorSpec
deriving DecidableEq, Repr

/-- A call issued by a pass: the four calls to the provisioning service and
the two kinds of store write, each with what was sent. -/
inductive Event
  | GetRequestTracker (id : String)
  | GetMachines (filter : String)
  | CreateMachine (virtualMachine : VirtualMachine)
  | DeleteMachine (id : String)
  | Update (site : UpdateSite) (virtualMachine : VirtualMachine) (ok : Bool)
  | StatusUpdate (status : VirtualMachineStatus) (ok : Bool)
deriving DecidableEq, Repr

/-- A call to the external provisioning service (poll, lookup, create,
delete), as opposed to a store write. -/
def Event.isExternal : Event → Bool
  | .GetRequestTracker _ => true
  | .GetMachines _ => true
  | .CreateMachine _ => true
  | .DeleteMachine _ => true
  | .Update _ _ _ => false
  | .StatusUpdate _ _ => false

/-- The answers one pass gets.  Every call to the service is made at most once
in a pass, and so is every store write at a given site.

* `getRequestTracker id`: the poll, an error or the tracker payload;
* `getMachines filter`: the lookup by tag;
* `createMachine vm`: the method `r.createMachine`, which builds the request
  body from the name, the namespace and `Spec` and submits it: an error or the
  `ID` pointer of the payload;
* `deleteMachine id`: an error or the `ID` pointer of the payload;
* `update site vm`, `statusUpdate vm`: `none` when the store accepts the write,
  else the error;
* `errorf format`: the text of `fmt.Errorf(format)` without operands (the
  format itself when it has no `%`). -/
structure World where
  getRequestTracker : String → Except String RequestTracker
  getMachines : String → Except String MachineResult
  createMachine : VirtualMachine → Except String (Option String)
  deleteMachine : String → Except String (Option String)
  update : UpdateSite → VirtualMachine → Option String
  statusUpdate : VirtualMachine → Option String
  errorf : String → String

/-- How a pass ends: with the pair `Reconcile` returns, or in a Go panic. -/
inductive Ret
  | returned (result : Result) (err : Option String)
  | panicked
deriving DecidableEq, Repr

/-- The state threaded through a pass: the in-memory record, the record as
the store holds it, and the calls issued so far. -/
structure Pass where
  vm : VirtualMachine
  stored : VirtualMachine
  trace : List Event
deriving DecidableEq, Repr

/-- A finished pass. -/
structure Outcome where
  vm : VirtualMachine
  stored : VirtualMachine
  trace : List Event
  ret : Ret
deriving DecidableEq, Repr

/-- How `deleteExternalResources` ends. -/
inductive Completion
  | normal (err : Option String)
  | panic
deriving DecidableEq, Repr

/-! ## Helpers of the controller -/

/-- The function `errors.Wrap`: nil stays nil. -/
def errorsWrap (err : Option String) (msg : String) : Option String :=
  match err with
  | none => none
  | some e => some (msg ++ ": " ++ e)

/-- The verb `%q` on a Kubernetes object name (lower-case alphanumerics, `-`
and `.`, so nothing is escaped). -/
def quoted (s : String) : String := "\"" ++ s ++ "\""

def createStatus (phase : StatusPhase) (msg : String) (err : Option String)
    (requestID : String) (machineID : String) : VirtualMachineStatus :=
  let msg := match err with
    | some e => msg ++ ": " ++ e
    | none => msg
  { Phase := phase, LastMessage := msg, ExternalRequestID := requestID, ExternalID := machineID }

def containsString : List String → String → Bool
  | [], _ => false
  | item :: slice, s => if item = s then true else containsString slice s

def removeString : List String → String → List String
  | [], _ => []
  | item :: slice, s => if item = s then removeString slice s else item :: removeString slice s

def Pass.log (p : Pass) (e : Event) : Pass :=
  { p with trace := p.trace ++ [e] }

def Pass.setStatus (p : Pass) (status : VirtualMachineStatus) : Pass :=
  { p with vm := { p.vm with Status := status } }

def Pass.returned (p : Pass) (result : Result) (err : Option String) : Outcome :=
  { vm := p.vm, stored := p.stored, trace := p.trace, ret := Ret.returned result err }

def Pass.panicked (p : Pass) : Outcome :=
  { vm := p.vm, stored := p.stored, trace := p.trace, ret := Ret.panicked }

/-- The call `r.Client.Status().Update`: on success the store takes the status
of the in-memory record. -/
def Pass.StatusUpdate (w : World) (p : Pass) : Pass × Option String :=
  match w.statusUpdate p.vm with
  | none =>
    ({ p with stored := { p.stored with Status := p.vm.Status },
              trace := p.trace ++ [Event.StatusUpdate p.vm.Status true] }, none)
  | some e => (p.log (Event.StatusUpdate p.vm.Status false), some e)

/-- The call `r.Update`: on success the store takes the metadata and `Spec` of
the in-memory record (the status is a subresource). -/
def Pass.Update (w : World) (site : UpdateSite) (p : Pass) : Pass × Option String :=
  match w.update site p.vm with
  | none =>
    ({ p with stored := { p.stored with Finalizers := p.vm.Finalizers, Spec := p.vm.Spec },
              trace := p.trace ++ [Event.Update site p.vm true] }, none)
  | some e => (p.log (Event.Update site p.vm false), some e)

/-- The recurring last line
`return result, errors.Wrap(r.Client.Status().Update(...), "could not update status")`. -/
def Pass.returnStatusUpdate (w : World) (p : Pass) (result : Result) : Outcome :=
  (p.StatusUpdate w).1.returned result (errorsWrap (p.StatusUpdate w).2 "could not update status")

/-! ## deleteExternalResources (line 240-262) -/

def deleteExternalResources (w : World) (p : Pass) : Pass × Completion :=
  if p.vm.Status.ExternalRequestID ≠ "" then
    (p, Completion.normal none)
  else if p.vm.Status.ExternalID ≠ "" then
    match p.vm.Spec.ID with
    | none => (p, Completion.panic)
    | some id =>
      match w.deleteMachine id with
      | .error deleteError => (p.log (Event.DeleteMachine id), Completion.normal (some deleteError))
      | .ok none => (p.log (Event.DeleteMachine id), Completion.panic)
      | .ok (some requestID) =>
        let p1 := (p.log (Event.DeleteMachine id)).setStatus
          (createStatus PendingStatusPhase "deleting Virtual Machine" none requestID
            p.vm.Status.ExternalID)
        ((p1.StatusUpdate w).1,
          Completion.normal (errorsWrap (p1.StatusUpdate w).2 "could not update status"))
  else
    ((p.StatusUpdate w).1,
      Completion.normal (errorsWrap (p.StatusUpdate w).2 "could not update status"))

/-! ## Reconcile (line 62-231) -/

/-- Line 93-128: the new status for a polled tracker status. -/
def trackerStatus (w : World) (status : String) (message : String)
    (old : VirtualMachineStatus) : VirtualMachineStatus :=
  if status = RequestTrackerStatusFAILED then
    createStatus ErrorStatusPhase "request failed" (some (w.errorf message))
      old.ExternalRequestID ""
  else if status = RequestTrackerStatusINPROGRESS then
    createStatus InProgressStatusPhase "request in progress" none old.ExternalRequestID ""
  else if status = RequestTrackerStatusFINISHED then
    createStatus RunningStatusPhase "request completed" none "" ""
  else
    createStatus ErrorStatusPhase message
      (some ("machineStateRefreshFunc: unknown status " ++ status)) old.ExternalRequestID ""

/-- Line 75-129: the branch taken when `Status.ExternalRequestID` is set. -/
def pollRequest (w : World) (p : Pass) : Outcome :=
  let p1 := p.log (Event.GetRequestTracker p.vm.Status.ExternalRequestID)
  match w.getRequestTracker p.vm.Status.ExternalRequestID with
  | .error err =>
    (p1.setStatus (createStatus ErrorStatusPhase "request tracker failed" (some err)
      p.vm.Status.ExternalRequestID "")).returnStatusUpdate w Result.empty
  | .ok requestTracker =>
    match requestTracker.Status with
    | none => p1.panicked
    | some status =>
      (p1.setStatus (trackerStatus w status requestTracker.Message p.vm.Status)).returnStatusUpdate
        w ⟨false, defaultRequeue⟩

/-- Line 131-153: the branch taken when the deletion timestamp is set. -/
def handleDeletion (w : World) (p : Pass) : Outcome :=
  if containsString p.vm.Finalizers virtualMachineFinalizer then
    match deleteExternalResources w p with
    | (p1, Completion.panic) => p1.panicked
    | (p1, Completion.normal (some err)) => p1.returned Result.empty (some err)
    | (p1, Completion.normal none) =>
      if p1.vm.Status.ExternalRequestID = "" then
        let p2 : Pass := { p1 with vm := { p1.vm with
          Finalizers := removeString p1.vm.Finalizers virtualMachineFinalizer } }
        match p2.Update w UpdateSite.removeFinalizer with
        | (p3, some err) => p3.returned Result.empty (errorsWrap (some err) "could not remove finalizer")
        | (p3, none) => p3.returned Result.empty none
      else
        p1.returned Result.empty none
  else
    p.returned Result.empty none

/-- Line 203-219: the seventeen assignments from the machine to `Spec`. -/
def mirrorSpec (spec : VirtualMachineSpec) (machine : Machine) : VirtualMachineSpec :=
  { spec with
    Address := machine.Address
    BootConfig := machine.BootConfig
    CloudAccountIds := machine.CloudAccountIds
    CreatedAt := machine.CreatedAt
    CustomProperties := machine.CustomProperties
    DeploymentID := machine.DeploymentID
    Description := machine.Description
    ExternalID := machine.ExternalID
    ExternalRegionID := machine.ExternalRegionID
    ExternalZoneID := machine.ExternalZoneID
    Hostname := machine.Hostname
    ID := machine.ID
    OrgID := machine.OrgID
    Owner := machine.Owner
    PowerState := machine.PowerState
    ProjectID := machine.ProjectID
    UpdatedAt := machine.UpdatedAt }

/-- Line 200-229: copy the machine into `Spec`, write the record (a failure is
only logged), set the status `RUNNING`.  A nil `machine` panics at line 203. -/
def mirrorMachine (w : World) (p : Pass) (machine : Option Machine) : Outcome :=
  match machine with
  | none => p.panicked
  | some m =>
    let p1 : Pass := { p with vm := { p.vm with Spec := mirrorSpec p.vm.Spec m } }
    let p2 := (p1.Update w UpdateSite.mirrorSpec).1
    match m.ID with
    | none => p2.panicked
    | some id =>
      (p2.setStatus (createStatus RunningStatusPhase "ready" none "" id)).returnStatusUpdate
        w Result.empty

/-- Line 184-198: create the machine when the lookup found none and no request
is recorded; otherwise go on to line 200. -/
def createOrMirror (w : World) (p : Pass) (machineExists : Bool) (machine : Option Machine) :
    Outcome :=
  if !machineExists then
    if p.vm.Status.ExternalRequestID = "" then
      let p1 := p.log (Event.CreateMachine p.vm)
      match w.createMachine p.vm with
      | .error err =>
        (p1.setStatus (createStatus ErrorStatusPhase
          "unable to create VirtualMachine in vRealize Automation" (some err) "" "")).returnStatusUpdate
          w Result.empty
      | .ok none => p1.panicked
      | .ok (some requestID) =>
        (p1.setStatus (createStatus CreatingStatusPhase
          "created VirtualMachine in vRealize Automation" none requestID "")).returnStatusUpdate
          w Result.empty
    else
      mirrorMachine w p machine
  else
    mirrorMachine w p machine

/-- The filter of line 165. -/
def machineFilter (name : String) : String :=
  "tags.item.key eq 'k8s_name' and tags.item.value eq '" ++ name ++ "'"

/-- Line 163-229: look the machine up by its tag, then create or mirror. -/
def syncMachine (w : World) (p : Pass) : Outcome :=
  let filter := machineFilter p.vm.Name
  let p1 := p.log (Event.GetMachines filter)
  match w.getMachines filter with
  | .error err =>
    (p1.setStatus (createStatus ErrorStatusPhase
      "unable to get VirtualMachine from vRealize Automation" (some err) "" "")).returnStatusUpdate
      w Result.empty
  | .ok machines =>
    if machines.TotalElements = 0 then
      createOrMirror w p1 false none
    else if machines.TotalElements > 1 then
      p1.returned Result.empty
        (some ("found more than one VirtualMachine with tag k8s_name:" ++ quoted p.vm.Name))
    else
      match machines.Content with
      | [] => p1.panicked
      | none :: _ => p1.panicked
      | some m :: _ =>
        match m.ID with
        | none => p1.panicked
        | some _ => createOrMirror w p1 true (some m)

/-- Line 155-161: add the finalizer when it is missing. -/
def registerFinalizer (w : World) (p : Pass) : Pass × Option String :=
  if !containsString p.vm.Finalizers virtualMachineFinalizer then
    let p1 : Pass := { p with vm := { p.vm with
      Finalizers := p.vm.Finalizers ++ [virtualMachineFinalizer] } }
    p1.Update w UpdateSite.addFinalizer
  else
    (p, none)

/-- One pass of `Reconcile` on the record `virtualMachine` that `r.Get`
fetched (line 72 on; when `r.Get` fails the function returns before anything
else happens). -/
def Reconcile (w : World) (virtualMachine : VirtualMachine) : Outcome :=
  let p : Pass := { vm := virtualMachine, stored := virtualMachine, trace := [] }
  if virtualMachine.Status.ExternalRequestID ≠ "" then
    pollRequest w p
  else if !IsZero virtualMachine.DeletionTimestamp then
    handleDeletion w p
  else
    match registerFinalizer w p with
    | (p1, some err) => p1.returned Result.empty (errorsWrap (some err) "could not add finalizer")
    | (p1, none) => syncMachine w p1

/-! ## Reading a trace -/

def Event.isPoll : Event → Bool
  | .GetRequestTracker _ => true
  | _ => false

def Event.isLookup : Event → Bool
  | .GetMachines _ => true
  | _ => false

def Event.isCreate : Event → Bool
  | .CreateMachine _ => true
  | _ => false

def Event.isDelete : Event → Bool
  | .DeleteMachine _ => true
  | _ => false

/-- The calls to the provisioning service in a trace, in order. -/
def externalCalls (trace : List Event) : List Event :=
  trace.filter Event.isExternal

/-- Both `externalRequestID` and `externalID` are non-empty. -/
def bothSet (status : VirtualMachineStatus) : Prop :=
  status.ExternalRequestID ≠ "" ∧ status.ExternalID ≠ ""

instance (status : VirtualMachineStatus) : Decidable (bothSet status) := by
  unfold bothSet
  exact inferInstance

/-- Every store write of the pass is accepted. -/
def World.storeOk (w : World) : Prop :=
  (∀ site v, w.update site v = none) ∧ (∀ v, w.statusUpdate v = none)

/-! ## Sample records and worlds -/

def sampleSpec : VirtualMachineSpec :=
  { Href := "", Address := "", BootConfig := none, CloudAccountIds := [], CreatedAt := "",
    CustomProperties := [], DeploymentID := "", Description := "", ExternalID := "",
    ExternalRegionID := none, ExternalZoneID := none, Hostname := "", ID := none, OrgID := "",
    OrganizationID := "", Owner := "", PowerState := none, ProjectID := "p-1", UpdatedAt := "",
    Flavor := "small", Image := "ubuntu", Constraints := [], Tags := [] }

def sampleMachine : Machine :=
  { Address := "10.0.0.7", BootConfig := none, CloudAccountIds := ["ca-1"],
    CreatedAt := "2022-01-01", CustomProperties := [], DeploymentID := "dep-1",
    Description := "", ExternalID := "i-0abc", ExternalRegionID := some "eu-1",
    ExternalZoneID := none, Hostname := "web", ID := some "m-1", OrgID := "org-1",
    Owner := "sam", PowerState := some "ON", ProjectID := "p-1", UpdatedAt := "2022-01-02" }

/-- A record as the store first shows it: no status, no finalizer. -/
def freshRecord : VirtualMachine :=
  { Name := "web", Namespace := "default", DeletionTimestamp := none, Finalizers := [],
    Spec := sampleSpec, Status := ⟨"", "", "", ""⟩ }

/-- A world whose service is unreachable and whose store accepts every write;
a format without `%` is printed as it is. -/
def downWorld : World :=
  { getRequestTracker := fun _ => .error "connection refused"
    getMachines := fun _ => .error "connection refused"
    createMachine := fun _ => .error "connection refused"
    deleteMachine := fun _ => .error "connection refused"
    update := fun _ _ => none
    statusUpdate := fun _ => none
    errorf := fun format => format }

/-- A record that is running and then marked for deletion: finalizer present,
`externalID` recorded, no request in flight. -/
def deletedRunningRecord : VirtualMachine :=
  { Name := "web", Namespace := "default", DeletionTimestamp := some 1,
    Finalizers := [virtualMachineFinalizer],
    Spec := { sampleSpec with ID := some "m-1" },
    Status := ⟨"RUNNING", "ready", "", "m-1"⟩ }

/-- A world in which the delete submission is accepted with request id `d-1`. -/
def deleteAcceptedWorld : World :=
  { downWorld with deleteMachine := fun _ => .ok (some "d-1") }

/-- A record marked for deletion whose delete request `d-1` is in flight. -/
def deletingRecord : VirtualMachine :=
  { deletedRunningRecord with Status := ⟨"PENDING", "deleting Virtual Machine", "d-1", "m-1"⟩ }

/-- A world in which every poll answers `INPROGRESS`. -/
def inProgressWorld : World :=
  { downWorld with getRequestTracker := fun _ => .ok ⟨some "INPROGRESS", ""⟩ }

/-- Neither the in-memory nor the stored status of a pass has both ids set. -/
def Pass.clean (p : Pass) : Prop := ¬ bothSet p.vm.Status ∧ ¬ bothSet p.stored.Status

/-- Neither the in-memory nor the stored status of a finished pass has both
ids set. -/
def Outcome.clean (o : Outcome) : Prop := ¬ bothSet o.vm.Status ∧ ¬ bothSet o.stored.Status

/-- A record whose creation request `r-1` is in flight. -/
def creatingRecord : VirtualMachine :=
  { freshRecord with
    Finalizers := [virtualMachineFinalizer]
    Status := ⟨"CREATING", "created VirtualMachine in vRealize Automation", "r-1", ""⟩ }

/-- A world in which every poll answers `FAILED` with the message
"quota exceeded". -/
def quotaWorld : World :=
  { downWorld with getRequestTracker := fun _ => .ok ⟨some "FAILED", "quota exceeded"⟩ }

/-- The record after line 155-161: the finalizer appended when it is missing. -/
def registered (virtualMachine : VirtualMachine) : VirtualMachine :=
  if containsString virtualMachine.Finalizers virtualMachineFinalizer then virtualMachine
  else { virtualMachine with
    Finalizers := virtualMachine.Finalizers ++ [virtualMachineFinalizer] }

/-- The pass after line 155-161 when the store accepts the finalizer write. -/
def registeredPass (virtualMachine : VirtualMachine) : Pass :=
  { vm := registered virtualMachine
    stored := registered virtualMachine
    trace :=
      if containsString virtualMachine.Finalizers virtualMachineFinalizer then []
      else [Event.Update UpdateSite.addFinalizer (registered virtualMachine) true] }

/-- A running record with finalizer and `externalID = "m-1"`. -/
def runningRecord : VirtualMachine :=
  { freshRecord with
    Finalizers := [virtualMachineFinalizer]
    Spec := { sampleSpec with ID := some "m-1", Address := "10.0.0.7" }
    Status := ⟨"RUNNING", "ready", "", "m-1"⟩ }

/-- A world in which the lookup finds no machine and a create submission is
accepted with request id `r-1`. -/
def createWorld : World :=
  { downWorld with
    getMachines := fun _ => .ok ⟨0, []⟩
    createMachine := fun _ => .ok (some "r-1") }

/-- A world in which every poll answers `FINISHED` and the lookup finds the
one machine `sampleMachine`, whose id is `m-1`. -/
def finishedWorld : World :=
  { downWorld with
    getRequestTracker := fun _ => .ok ⟨some "FINISHED", ""⟩
    getMachines := fun _ => .ok ⟨1, [some sampleMachine]⟩ }

/-! ## A model of the provisioning service -/

/-- What an operation of the service does when it finishes: it brings the
machine tagged `name` into being, or it removes the machine `machineID`. -/
inductive OperationKind
  | create (name : String)
  | delete (machineID : String)
deriving DecidableEq, Repr

/-- An asynchronous operation of the service: its request id, what it does,
and its tracker status. -/
structure Operation where
  id : String
  kind : OperationKind
  status : String
deriving DecidableEq, Repr

/-- A small model of the external provisioning service, after section 4.1 of
the specification: the machines it holds, each under the value of its
`k8s_name` tag, and the operations submitted to it. -/
structure Service where
  machines : List (String × Machine)
  operations : List Operation
deriving DecidableEq, Repr

/-- The request id the service gives to its next operation. -/
def Service.nextID (s : Service) : String :=
  "r-" ++ String.mk (List.replicate s.operations.length '+')

/-- The machine the service provisions for the tag value `name`. -/
def Service.machineFor (name : String) : Machine :=
  { sampleMachine with ID := some ("m-" ++ name), Hostname := name }

/-- The answers the service (and a store that accepts every write) gives
during a pass. -/
def Service.world (s : Service) : World :=
  { getRequestTracker := fun id =>
      match s.operations.find? (fun op => op.id == id) with
      | some op => .ok ⟨some op.status, ""⟩
      | none => .error "request not found"
    getMachines := fun filter =>
      .ok ⟨((s.machines.filter (fun nm => machineFilter nm.1 == filter)).length : Nat),
        (s.machines.filter (fun nm => machineFilter nm.1 == filter)).map (fun nm => some nm.2)⟩
    createMachine := fun _ => .ok (some s.nextID)
    deleteMachine := fun _ => .ok (some s.nextID)
    update := fun _ _ => none
    statusUpdate := fun _ => none
    errorf := fun format => format }

/-- The effect of one call on the service: a create or delete submission opens
an operation; polls, lookups and store writes change nothing. -/
def Service.submit (s : Service) : Event → Service
  | .CreateMachine vm =>
    { s with operations := s.operations ++ [⟨s.nextID, OperationKind.create vm.Name, "INPROGRESS"⟩] }
  | .DeleteMachine id =>
    { s with operations := s.operations ++ [⟨s.nextID, OperationKind.delete id, "INPROGRESS"⟩] }
  | _ => s

/-- The service after the calls of a pass. -/
def Service.after (s : Service) (o : Outcome) : Service :=
  o.trace.foldl Service.submit s

/-- The operation `id` finishes: a create adds its machine, a delete removes
the machine it names. -/
def Service.finish (s : Service) (id : String) : Service :=
  match s.operations.find? (fun op => op.id == id) with
  | none => s
  | some op =>
    { machines :=
        match op.kind with
        | .create name => s.machines ++ [(name, Service.machineFor name)]
        | .delete machineID => s.machines.filter (fun nm => nm.2.ID != some machineID)
      operations :=
        s.operations.map (fun o => if o.id == id then { o with status := "FINISHED" } else o) }

/-- The service holds a machine tagged with `name`. -/
def Service.holds (s : Service) (name : String) : Bool :=
  s.machines.any (fun nm => nm.1 == name)

/-- Some delete operation of the service is still in progress. -/
def Service.deleting (s : Service) : Bool :=
  s.operations.any (fun op =>
    match op.kind with
    | .delete _ => op.status == "INPROGRESS"
    | .create _ => false)

/-- The service ever received a delete submission. -/
def Service.deleteSubmitted (s : Service) : Bool :=
  s.operations.any (fun op =>
    match op.kind with
    | .delete _ => true
    | .create _ => false)

/-- The first pass on a fresh record against an empty service. -/
def leakPass1 : Outcome := Reconcile (Service.world ⟨[], []⟩) freshRecord

/-- The service after the first pass, once the creation it received has
finished. -/
def leakService1 : Service := ((Service.after ⟨[], []⟩ leakPass1).finish "r-")

/-- The second pass: the poll of the creation request. -/
def leakPass2 : Outcome := Reconcile leakService1.world leakPass1.stored

/-- The service after the second pass. -/
def leakService2 : Service := leakService1.after leakPass2

/-- The third pass, on the stored record once the user has deleted it (the
deletion timestamp set). -/
def leakPass3 : Outcome :=
  Reconcile leakService2.world { leakPass2.stored with DeletionTimestamp := some 1 }

/-- The service after the third pass. -/
def leakService3 : Service := leakService2.after leakPass3

/-- A world in which the lookup reports two machines with the record's tag. -/
def ambiguousWorld : World :=
  { downWorld with getMachines := fun _ => .ok ⟨2, [some sampleMachine, some sampleMachine]⟩ }

/-- A world in which the lookup finds no machine and the create submission is
refused. -/
def refusedWorld : World :=
  { downWorld with
    getMachines := fun _ => .ok ⟨0, []⟩
    createMachine := fun _ => .error "quota exceeded" }

/-- The number of create submissions in a trace. -/
def createCount (trace : List Event) : Nat := trace.countP Event.isCreate

/-- The number of delete submissions in a trace. -/
def deleteCount (trace : List Event) : Nat := trace.countP Event.isDelete

/-- A world in which the lookup finds no machine, a create submission is
accepted with request id `r-1`, and every poll answers `INPROGRESS`. -/
def slowWorld : World :=
  { createWorld with getRequestTracker := fun _ => .ok ⟨some "INPROGRESS", ""⟩ }

/-- The store write of line 221, the one that follows the Spec assignments of
line 203-219. -/
def Event.isMirrorWrite : Event → Bool
  | .Update UpdateSite.mirrorSpec _ _ => true
  | _ => false

/-- The writes of line 221 in a trace: the marks of the mirror step. -/
def mirrorWrites (trace : List Event) : List Event :=
  trace.filter Event.isMirrorWrite

/-- A record marked for deletion with nothing recorded, whose finalizer list
holds two finalizers of other controllers around the controller's own. -/
def deletedSharedRecord : VirtualMachine :=
  { freshRecord with
    DeletionTimestamp := some 1
    Finalizers :=
      ["kubernetes.io/pvc-protection", virtualMachineFinalizer, "example.com/cleanup"] }

/-! ## Theorems -/

theorem containsString_removeString (slice : List String) (s : String) :
    containsString (removeString slice s) s = false := by
  induction slice with
  | nil => rfl
  | cons item rest ih =>
    by_cases h : item = s
    · simp [removeString, h, ih]
    · simp [removeString, containsString, h, ih]

/-! ### C1 -/

/-- C1, as stated, fails: a running record marked for deletion has
`externalID = "m-1"` and no request id; the pass submits the delete, the
service answers with request id `d-1`, and the status the pass writes holds
both `d-1` and `m-1`. -/
theorem status_pair_counterexample :
    ¬ bothSet deletedRunningRecord.Status ∧
    bothSet (Reconcile deleteAcceptedWorld deletedRunningRecord).stored.Status ∧
    (Reconcile deleteAcceptedWorld deletedRunningRecord).stored.Status =
      ⟨"PENDING", "deleting Virtual Machine", "d-1", "m-1"⟩ := by
  decide

theorem returnStatusUpdate_vm (w : World) (p : Pass) (r : Result) :
    (p.returnStatusUpdate w r).vm = p.vm := by
  unfold Pass.returnStatusUpdate Pass.StatusUpdate Pass.returned Pass.log
  cases w.statusUpdate p.vm <;> rfl

theorem returnStatusUpdate_stored (w : World) (p : Pass) (r : Result) :
    (p.returnStatusUpdate w r).stored =
      match w.statusUpdate p.vm with
      | none => { p.stored with Status := p.vm.Status }
      | some _ => p.stored := by
  unfold Pass.returnStatusUpdate Pass.StatusUpdate Pass.returned Pass.log
  cases w.statusUpdate p.vm <;> rfl

/-! ### The branches of a pass -/

theorem returnStatusUpdate_trace (w : World) (p : Pass) (r : Result) :
    (p.returnStatusUpdate w r).trace =
      p.trace ++ [Event.StatusUpdate p.vm.Status (w.statusUpdate p.vm).isNone] := by
  unfold Pass.returnStatusUpdate Pass.StatusUpdate Pass.returned Pass.log
  cases w.statusUpdate p.vm <;> rfl

theorem returnStatusUpdate_ret (w : World) (p : Pass) (r : Result) :
    (p.returnStatusUpdate w r).ret =
      Ret.returned r (errorsWrap (w.statusUpdate p.vm) "could not update status") := by
  unfold Pass.returnStatusUpdate Pass.StatusUpdate Pass.returned Pass.log
  cases w.statusUpdate p.vm <;> rfl

theorem returnStatusUpdate_stored_ok (w : World) (p : Pass) (r : Result)
    (h : w.statusUpdate p.vm = none) :
    (p.returnStatusUpdate w r).stored = { p.stored with Status := p.vm.Status } := by
  rw [returnStatusUpdate_stored, h]

theorem returnStatusUpdate_stored_rest (w : World) (p : Pass) (r : Result)
    (s : VirtualMachineStatus) :
    { (p.returnStatusUpdate w r).stored with Status := s } = { p.stored with Status := s } := by
  rw [returnStatusUpdate_stored]
  cases w.statusUpdate p.vm <;> rfl

theorem externalCalls_append (t : List Event) (e : Event) :
    externalCalls (t ++ [e]) = externalCalls t ++ (if e.isExternal then [e] else []) := by
  unfold externalCalls
  rw [List.filter_append]
  cases h : e.isExternal <;> simp [List.filter, h]

theorem externalCalls_app (a b : List Event) :
    externalCalls (a ++ b) = externalCalls a ++ externalCalls b := by
  unfold externalCalls
  exact List.filter_append a b

theorem externalCalls_cons (e : Event) (t : List Event) :
    externalCalls (e :: t) = if e.isExternal then e :: externalCalls t else externalCalls t := by
  unfold externalCalls
  cases h : e.isExternal <;> simp [List.filter, h]

theorem externalCalls_nil : externalCalls [] = [] := rfl

theorem Reconcile_poll (w : World) (vm : VirtualMachine)
    (hreq : vm.Status.ExternalRequestID ≠ "") :
    Reconcile w vm = pollRequest w { vm := vm, stored := vm, trace := [] } := by
  unfold Reconcile
  simp only [hreq, if_true, ne_eq, not_false_eq_true]

theorem pollRequest_error (w : World) (p : Pass) (err : String)
    (hpoll : w.getRequestTracker p.vm.Status.ExternalRequestID = .error err) :
    pollRequest w p =
      ((p.log (Event.GetRequestTracker p.vm.Status.ExternalRequestID)).setStatus
        (createStatus ErrorStatusPhase "request tracker failed" (some err)
          p.vm.Status.ExternalRequestID "")).returnStatusUpdate w Result.empty := by
  unfold pollRequest
  simp only [hpoll]

theorem pollRequest_nil (w : World) (p : Pass) (message : String)
    (hpoll : w.getRequestTracker p.vm.Status.ExternalRequestID = .ok ⟨none, message⟩) :
    pollRequest w p = (p.log (Event.GetRequestTracker p.vm.Status.ExternalRequestID)).panicked := by
  unfold pollRequest
  simp only [hpoll]

theorem pollRequest_status (w : World) (p : Pass) (status message : String)
    (hpoll : w.getRequestTracker p.vm.Status.ExternalRequestID = .ok ⟨some status, message⟩) :
    pollRequest w p =
      ((p.log (Event.GetRequestTracker p.vm.Status.ExternalRequestID)).setStatus
        (trackerStatus w status message p.vm.Status)).returnStatusUpdate w
        ⟨false, defaultRequeue⟩ := by
  unfold pollRequest
  simp only [hpoll]

theorem returnStatusUpdate_clean (w : World) (p : Pass) (r : Result) (h : p.clean) :
    (p.returnStatusUpdate w r).clean := by
  unfold Outcome.clean
  rw [returnStatusUpdate_vm, returnStatusUpdate_stored]
  cases w.statusUpdate p.vm <;> exact ⟨h.1, by first | exact h.1 | exact h.2⟩

theorem pollRequest_clean (w : World) (p : Pass) (h : p.clean) : (pollRequest w p).clean := by
  unfold pollRequest
  simp only []
  split
  · apply returnStatusUpdate_clean
    exact ⟨by simp [Pass.setStatus, Pass.log, createStatus, bothSet], h.2⟩
  · split
    · exact h
    · apply returnStatusUpdate_clean
      refine ⟨?_, h.2⟩
      simp only [Pass.setStatus, Pass.log, trackerStatus, createStatus, bothSet]
      split_ifs <;> simp

theorem Update_clean (w : World) (site : UpdateSite) (p : Pass) (h : p.clean) :
    (p.Update w site).1.clean := by
  unfold Pass.Update Pass.log
  cases w.update site p.vm <;> exact h

theorem mirrorMachine_clean (w : World) (p : Pass) (machine : Option Machine) (h : p.clean) :
    (mirrorMachine w p machine).clean := by
  unfold mirrorMachine
  split
  · exact h
  · rename_i m
    have h1 : Pass.clean { p with vm := { p.vm with Spec := mirrorSpec p.vm.Spec m } } := h
    have h2 := Update_clean w UpdateSite.mirrorSpec _ h1
    simp only []
    split
    · exact h2
    · apply returnStatusUpdate_clean
      exact ⟨by simp [Pass.setStatus, createStatus, bothSet], h2.2⟩

theorem createOrMirror_clean (w : World) (p : Pass) (e : Bool) (machine : Option Machine)
    (h : p.clean) : (createOrMirror w p e machine).clean := by
  unfold createOrMirror
  split_ifs
  · simp only []
    split
    · apply returnStatusUpdate_clean
      exact ⟨by simp [Pass.setStatus, createStatus, bothSet], h.2⟩
    · exact h
    · apply returnStatusUpdate_clean
      exact ⟨by simp [Pass.setStatus, createStatus, bothSet], h.2⟩
  · exact mirrorMachine_clean w p machine h
  · exact mirrorMachine_clean w p machine h

theorem syncMachine_clean (w : World) (p : Pass) (h : p.clean) : (syncMachine w p).clean := by
  unfold syncMachine
  simp only []
  split
  · apply returnStatusUpdate_clean
    exact ⟨by simp [Pass.setStatus, createStatus, bothSet], h.2⟩
  · split_ifs
    · exact createOrMirror_clean w _ _ _ h
    · exact h
    · split
      · exact h
      · exact h
      · split
        · exact h
        · exact createOrMirror_clean w _ _ _ h

theorem StatusUpdate_clean (w : World) (p : Pass) (h : p.clean) : (p.StatusUpdate w).1.clean := by
  unfold Pass.StatusUpdate Pass.log
  cases w.statusUpdate p.vm
  · exact ⟨h.1, h.1⟩
  · exact h

theorem registerFinalizer_clean (w : World) (p : Pass) (h : p.clean) :
    (registerFinalizer w p).1.clean := by
  unfold registerFinalizer
  split_ifs
  · exact Update_clean w _ _ (show Pass.clean _ from h)
  · exact h

theorem deleteExternalResources_status (w : World) (p : Pass) (h : p.clean) :
    (deleteExternalResources w p).1.clean ∨
    ∃ id requestID, p.vm.Status.ExternalRequestID = "" ∧ p.vm.Spec.ID = some id ∧
      w.deleteMachine id = .ok (some requestID) ∧
      (deleteExternalResources w p).1.vm.Status =
        ⟨PendingStatusPhase, "deleting Virtual Machine", requestID, p.vm.Status.ExternalID⟩ := by
  unfold deleteExternalResources
  split_ifs with h1 h2
  · exact Or.inl h
  · split
    · exact Or.inl h
    · rename_i id hid
      split
      · exact Or.inl h
      · exact Or.inl h
      · rename_i requestID hdel
        right
        refine ⟨id, requestID, not_not.mp h1, hid, hdel, ?_⟩
        simp only [Pass.StatusUpdate, Pass.setStatus, Pass.log, createStatus]
        cases w.statusUpdate _ <;> rfl
  · exact Or.inl (StatusUpdate_clean w p h)

theorem handleDeletion_status (w : World) (p : Pass) :
    ((handleDeletion w p).vm.Status = p.vm.Status ∧
      (handleDeletion w p).stored.Status = p.stored.Status) ∨
    (containsString p.vm.Finalizers virtualMachineFinalizer = true ∧
      (handleDeletion w p).vm.Status = (deleteExternalResources w p).1.vm.Status ∧
      (handleDeletion w p).stored.Status = (deleteExternalResources w p).1.stored.Status) := by
  unfold handleDeletion
  split_ifs with hfin
  · right
    refine ⟨hfin, ?_⟩
    split
    · rename_i p1 heq
      simp [heq, Pass.panicked]
    · rename_i p1 err heq
      simp [heq, Pass.returned]
    · rename_i p1 heq
      simp only [heq]
      split_ifs
      · unfold Pass.Update Pass.log
        simp only []
        cases w.update UpdateSite.removeFinalizer _ <;> simp [Pass.returned]
      · simp [Pass.returned]
  · left
    simp [Pass.returned]

/-- C1, amended: from a status that does not have both `externalRequestID` and
`externalID` non-empty, and whatever the service and the store answer, one pass
leaves a status (in memory and stored) that does not have both non-empty,
except in the deletion pass whose delete submission the service accepts: that
pass writes the status `PENDING` / "deleting Virtual Machine" with the delete
request's id next to the unchanged `externalID`. -/
theorem status_pair_after_pass (w : World) (vm : VirtualMachine) (h : ¬ bothSet vm.Status) :
    (¬ bothSet (Reconcile w vm).stored.Status ∧ ¬ bothSet (Reconcile w vm).vm.Status) ∨
    (∃ id requestID, IsZero vm.DeletionTimestamp = false ∧
      containsString vm.Finalizers virtualMachineFinalizer = true ∧
      vm.Status.ExternalRequestID = "" ∧ vm.Spec.ID = some id ∧
      w.deleteMachine id = .ok (some requestID) ∧
      (Reconcile w vm).vm.Status =
        ⟨PendingStatusPhase, "deleting Virtual Machine", requestID, vm.Status.ExternalID⟩) := by
  have hp : Pass.clean { vm := vm, stored := vm, trace := [] } := ⟨h, h⟩
  unfold Reconcile
  simp only []
  split_ifs with h1 h2
  · left
    exact (pollRequest_clean w _ hp).symm
  · rcases handleDeletion_status w { vm := vm, stored := vm, trace := [] } with ⟨hv, hs⟩ | ⟨hfin, hv, hs⟩
    · left
      rw [hv, hs]
      exact ⟨h, h⟩
    · rcases deleteExternalResources_status w _ hp with hc | ⟨id, requestID, hr, hid, hdel, hst⟩
      · left
        rw [hv, hs]
        exact hc.symm
      · right
        refine ⟨id, requestID, by simpa using h2, hfin, hr, hid, hdel, ?_⟩
        rw [hv, hst]
  · left
    have hr := registerFinalizer_clean w _ hp
    split
    · rename_i p1 err heq
      rw [heq] at hr
      exact hr.symm
    · rename_i p1 heq
      rw [heq] at hr
      exact (syncMachine_clean w p1 hr).symm

theorem status_pair_after_pass_witness :
    (¬ bothSet (Reconcile downWorld freshRecord).stored.Status ∧
      ¬ bothSet (Reconcile downWorld freshRecord).vm.Status) ∨
    (∃ id requestID, IsZero freshRecord.DeletionTimestamp = false ∧
      containsString freshRecord.Finalizers virtualMachineFinalizer = true ∧
      freshRecord.Status.ExternalRequestID = "" ∧ freshRecord.Spec.ID = some id ∧
      downWorld.deleteMachine id = .ok (some requestID) ∧
      (Reconcile downWorld freshRecord).vm.Status =
        ⟨PendingStatusPhase, "deleting Virtual Machine", requestID,
          freshRecord.Status.ExternalID⟩) :=
  status_pair_after_pass downWorld freshRecord (by decide)

/-! ### C3 -/

theorem removeString_eq_filter (slice : List String) (s : String) :
    removeString slice s = slice.filter (fun item => decide (item ≠ s)) := by
  induction slice with
  | nil => rfl
  | cons item rest ih =>
    by_cases h : item = s
    · simp [removeString, h, ih]
    · simp [removeString, h, ih]

/-- C3: for a record with the deletion signal set, the finalizer present and
both `externalID` and `externalRequestID` empty, when the store accepts its
writes, one pass removes the finalizer from the finalizer list: the stored
record is the old one with its list filtered, every entry other than the
controller's finalizer kept, in order, and the controller's finalizer gone;
the pass calls the provisioning service not once, and returns the empty result
with no error. -/
theorem deletion_without_external_object (w : World) (vm : VirtualMachine)
    (hdel : IsZero vm.DeletionTimestamp = false)
    (hfin : containsString vm.Finalizers virtualMachineFinalizer = true)
    (hid : vm.Status.ExternalID = "") (hreq : vm.Status.ExternalRequestID = "")
    (hstore : w.storeOk) :
    (Reconcile w vm).stored =
      { vm with Finalizers := removeString vm.Finalizers virtualMachineFinalizer } ∧
    containsString (Reconcile w vm).stored.Finalizers virtualMachineFinalizer = false ∧
    externalCalls (Reconcile w vm).trace = [] ∧
    (Reconcile w vm).ret = Ret.returned Result.empty none ∧
    (Reconcile w vm).stored =
      { vm with Finalizers :=
          vm.Finalizers.filter (fun item => decide (item ≠ virtualMachineFinalizer)) } ∧
    virtualMachineFinalizer ∉ (Reconcile w vm).stored.Finalizers ∧
    (∀ item, item ≠ virtualMachineFinalizer →
      (item ∈ (Reconcile w vm).stored.Finalizers ↔ item ∈ vm.Finalizers)) := by
  obtain ⟨hu, hs⟩ := hstore
  have hstored : (Reconcile w vm).stored =
      { vm with Finalizers :=
          vm.Finalizers.filter (fun item => decide (item ≠ virtualMachineFinalizer)) } := by
    rw [← removeString_eq_filter]
    simp [Reconcile, handleDeletion, deleteExternalResources, Pass.StatusUpdate, Pass.Update,
      hdel, hfin, hid, hreq, hu, hs, errorsWrap, Pass.returned]
  refine ⟨?_, ?_, ?_, ?_, hstored, ?_, ?_⟩
  · simp [Reconcile, handleDeletion, deleteExternalResources, Pass.StatusUpdate, Pass.Update,
      hdel, hfin, hid, hreq, hu, hs, errorsWrap, Pass.returned]
  · simp [Reconcile, handleDeletion, deleteExternalResources, Pass.StatusUpdate, Pass.Update,
      hdel, hfin, hid, hreq, hu, hs, errorsWrap, Pass.returned, containsString_removeString]
  · simp [Reconcile, handleDeletion, deleteExternalResources, Pass.StatusUpdate, Pass.Update,
      hdel, hfin, hid, hreq, hu, hs, errorsWrap, Pass.returned, externalCalls,
      Event.isExternal]
  · simp [Reconcile, handleDeletion, deleteExternalResources, Pass.StatusUpdate, Pass.Update,
      hdel, hfin, hid, hreq, hu, hs, errorsWrap, Pass.returned]
  · rw [hstored]
    simp [List.mem_filter]
  · intro item hitem
    rw [hstored]
    simp [List.mem_filter, hitem]

theorem deletion_without_external_object_witness :
    (Reconcile downWorld deletedSharedRecord).stored =
      { deletedSharedRecord with
        Finalizers := ["kubernetes.io/pvc-protection", "example.com/cleanup"] } ∧
    externalCalls (Reconcile downWorld deletedSharedRecord).trace = [] ∧
    (Reconcile downWorld deletedSharedRecord).ret = Ret.returned Result.empty none :=
  have h := deletion_without_external_object downWorld deletedSharedRecord (by decide)
    (by decide) rfl rfl ⟨fun _ _ => rfl, fun _ => rfl⟩
  ⟨h.2.2.2.2.1.trans (by decide), h.2.2.1, h.2.2.2.1⟩

/-! ### C4 -/

/-- C4, as stated, fails: for a record marked for deletion whose delete request
`d-1` is in flight, the pass polls `d-1` (one call to the service) and rewrites
the status; the deletion branch is not reached. -/
theorem deletion_in_flight_counterexample :
    IsZero deletingRecord.DeletionTimestamp = false ∧
    deletingRecord.Status.ExternalRequestID ≠ "" ∧
    externalCalls (Reconcile inProgressWorld deletingRecord).trace =
      [Event.GetRequestTracker "d-1"] ∧
    (Reconcile inProgressWorld deletingRecord).stored.Status =
      ⟨"INPROGRESS", "request in progress", "d-1", ""⟩ ∧
    (Reconcile inProgressWorld deletingRecord).stored ≠ deletingRecord := by
  decide

/-- C4, amended: for a record with the deletion signal set and
`externalRequestID` non-empty, one pass makes exactly one call to the
provisioning service, the poll of that request (no lookup, create or delete);
it leaves name, namespace, deletion timestamp, finalizers and `Spec`
untouched, in memory and in the store; and when the poll call answers with a
status, the in-memory status is the one derived from the answer and the pass
returns requeue-after-delay (20 s), with no error if the status write is
accepted. -/
theorem deletion_in_flight_polls (w : World) (vm : VirtualMachine)
    (_hdel : IsZero vm.DeletionTimestamp = false)
    (hreq : vm.Status.ExternalRequestID ≠ "") :
    externalCalls (Reconcile w vm).trace = [Event.GetRequestTracker vm.Status.ExternalRequestID] ∧
    { (Reconcile w vm).stored with Status := vm.Status } = vm ∧
    { (Reconcile w vm).vm with Status := vm.Status } = vm ∧
    (∀ tracker status, w.getRequestTracker vm.Status.ExternalRequestID = .ok tracker →
      tracker.Status = some status →
      (Reconcile w vm).vm.Status = trackerStatus w status tracker.Message vm.Status ∧
      (∃ err, (Reconcile w vm).ret = Ret.returned ⟨false, defaultRequeue⟩ err ∧
        (w.statusUpdate (Reconcile w vm).vm = none → err = none))) := by
  rw [Reconcile_poll w vm hreq]
  cases hpoll : w.getRequestTracker vm.Status.ExternalRequestID with
  | error err =>
    rw [pollRequest_error w _ err hpoll]
    refine ⟨?_, ?_, ?_, ?_⟩
    · simp [returnStatusUpdate_trace, externalCalls_append, Pass.setStatus, Pass.log,
        Event.isExternal, externalCalls]
    · rw [returnStatusUpdate_stored_rest]
      rfl
    · rw [returnStatusUpdate_vm]
      rfl
    · intro tracker status h
      cases h
  | ok tracker =>
    obtain ⟨st, msg⟩ := tracker
    cases st with
    | none =>
      rw [pollRequest_nil w _ msg hpoll]
      refine ⟨?_, rfl, rfl, ?_⟩
      · simp [Pass.panicked, Pass.log, externalCalls, Event.isExternal]
      · intro tracker status h hs
        cases h
        cases hs
    | some status =>
      rw [pollRequest_status w _ status msg hpoll]
      refine ⟨?_, ?_, ?_, ?_⟩
      · simp [returnStatusUpdate_trace, externalCalls_append, Pass.setStatus, Pass.log,
          Event.isExternal, externalCalls]
      · rw [returnStatusUpdate_stored_rest]
        rfl
      · rw [returnStatusUpdate_vm]
        rfl
      · intro tracker status1 h hs
        cases h
        cases hs
        rw [returnStatusUpdate_vm, returnStatusUpdate_ret]
        refine ⟨rfl, _, rfl, ?_⟩
        intro hsu
        have hsu1 : w.statusUpdate { vm with Status := trackerStatus w status msg vm.Status }
            = none := hsu
        simp [Pass.setStatus, Pass.log, hsu1, errorsWrap]

theorem deletion_in_flight_polls_witness :
    externalCalls (Reconcile inProgressWorld deletingRecord).trace =
      [Event.GetRequestTracker "d-1"] ∧
    (∃ err, (Reconcile inProgressWorld deletingRecord).ret =
      Ret.returned ⟨false, defaultRequeue⟩ err) :=
  have h := deletion_in_flight_polls inProgressWorld deletingRecord (by decide) (by decide)
  ⟨h.1, (h.2.2.2 ⟨some "INPROGRESS", ""⟩ "INPROGRESS" rfl rfl).2.imp fun _ he => he.1⟩

/-! ### C5 -/

theorem Reconcile_deletion (w : World) (vm : VirtualMachine)
    (hreq : vm.Status.ExternalRequestID = "") (hdel : IsZero vm.DeletionTimestamp = false) :
    Reconcile w vm = handleDeletion w { vm := vm, stored := vm, trace := [] } := by
  unfold Reconcile
  simp [hreq, hdel]

/-- C5, as stated, fails: a running record marked for deletion gets its delete
submitted and accepted with request id `d-1`; the pass stores `PENDING` and
`d-1`, but it returns the empty result (no requeue delay); and when the
submission fails, the pass returns the error with the empty result as well. -/
theorem deletion_submit_counterexample :
    IsZero deletedRunningRecord.DeletionTimestamp = false ∧
    containsString deletedRunningRecord.Finalizers virtualMachineFinalizer = true ∧
    deletedRunningRecord.Status.ExternalRequestID = "" ∧
    deletedRunningRecord.Status.ExternalID ≠ "" ∧
    externalCalls (Reconcile deleteAcceptedWorld deletedRunningRecord).trace =
      [Event.DeleteMachine "m-1"] ∧
    (Reconcile deleteAcceptedWorld deletedRunningRecord).ret = Ret.returned ⟨false, 0⟩ none ∧
    (Reconcile downWorld deletedRunningRecord).ret =
      Ret.returned ⟨false, 0⟩ (some "connection refused") := by
  decide

/-- C5, amended: for a record with the deletion signal set, the finalizer
present, `externalRequestID` empty, `externalID` non-empty and `Spec.ID` set to
`id`, one pass makes exactly one call to the provisioning service, the delete
submission for `id`.  If the service accepts it with a non-empty request id
and the status write is accepted, the stored record is the old one with the
status `PENDING` / "deleting Virtual Machine" / that request id / the old
`externalID` (so the finalizer stays), and the pass returns the empty result
with no error.  If the submission fails, the record is unchanged (finalizer
kept) and the pass returns that error with the empty result. -/
theorem deletion_submits_delete (w : World) (vm : VirtualMachine) (id : String)
    (hdel : IsZero vm.DeletionTimestamp = false)
    (hfin : containsString vm.Finalizers virtualMachineFinalizer = true)
    (hreq : vm.Status.ExternalRequestID = "") (hid : vm.Status.ExternalID ≠ "")
    (hspec : vm.Spec.ID = some id) :
    externalCalls (Reconcile w vm).trace = [Event.DeleteMachine id] ∧
    (∀ requestID, w.deleteMachine id = .ok (some requestID) → requestID ≠ "" →
      w.statusUpdate { vm with Status :=
        ⟨PendingStatusPhase, "deleting Virtual Machine", requestID, vm.Status.ExternalID⟩ } = none →
      (Reconcile w vm).stored = { vm with Status :=
        ⟨PendingStatusPhase, "deleting Virtual Machine", requestID, vm.Status.ExternalID⟩ } ∧
      containsString (Reconcile w vm).stored.Finalizers virtualMachineFinalizer = true ∧
      (Reconcile w vm).ret = Ret.returned Result.empty none) ∧
    (∀ err, w.deleteMachine id = .error err →
      (Reconcile w vm).stored = vm ∧ (Reconcile w vm).vm = vm ∧
      (Reconcile w vm).ret = Ret.returned Result.empty (some err)) := by
  rw [Reconcile_deletion w vm hreq hdel]
  unfold handleDeletion deleteExternalResources
  simp only [hfin, hreq, hid, hspec, if_true, ne_eq, not_true_eq_false, not_false_eq_true,
    if_false]
  cases hcall : w.deleteMachine id with
  | error err =>
    simp [Pass.returned, Pass.log, externalCalls, Event.isExternal]
  | ok answer =>
    cases answer with
    | none => simp [Pass.panicked, Pass.log, externalCalls, Event.isExternal]
    | some requestID =>
      simp only [Pass.StatusUpdate, Pass.setStatus, Pass.log, createStatus]
      cases hsu : w.statusUpdate _ with
      | some e =>
        simp only [errorsWrap, Pass.returned]
        refine ⟨by simp [externalCalls, Event.isExternal], ?_, by simp⟩
        intro r hr _ hw
        cases hr
        rw [hsu] at hw
        cases hw
      | none =>
        simp only [errorsWrap]
        by_cases hempty : requestID = ""
        · simp only [hempty, if_true, Pass.Update, Pass.log]
          cases w.update UpdateSite.removeFinalizer _ <;>
            simp [Pass.returned, externalCalls, Event.isExternal]
        · simp [hempty, Pass.returned, externalCalls, Event.isExternal, hfin]

theorem deletion_submits_delete_witness :
    externalCalls (Reconcile deleteAcceptedWorld deletedRunningRecord).trace =
      [Event.DeleteMachine "m-1"] ∧
    (Reconcile deleteAcceptedWorld deletedRunningRecord).stored =
      { deletedRunningRecord with Status := ⟨"PENDING", "deleting Virtual Machine", "d-1", "m-1"⟩ } ∧
    (Reconcile deleteAcceptedWorld deletedRunningRecord).ret = Ret.returned Result.empty none :=
  have h := deletion_submits_delete deleteAcceptedWorld deletedRunningRecord "m-1"
    (by decide) (by decide) rfl (by decide) rfl
  have h2 := h.2.1 "d-1" rfl (by decide) rfl
  ⟨h.1, h2.1, h2.2.2⟩

/-! ### C6 -/

/-- C6, as stated, fails: the creation request `r-1` is in flight and its poll
answers `FAILED` with the message "quota exceeded"; the pass sets `ERROR` and a
message with that text, but `externalRequestID` is still `r-1`. -/
theorem poll_failed_counterexample :
    IsZero creatingRecord.DeletionTimestamp = true ∧
    creatingRecord.Status.ExternalRequestID = "r-1" ∧
    (Reconcile quotaWorld creatingRecord).stored.Status =
      ⟨"ERROR", "request failed: quota exceeded", "r-1", ""⟩ ∧
    (Reconcile quotaWorld creatingRecord).stored.Status.ExternalRequestID ≠ "" := by
  decide

/-- C6, amended: for a record without deletion signal whose
`externalRequestID` is non-empty, when the poll of that request answers
`FAILED` with message `m`, one pass leaves the status `ERROR` with the message
"request failed: " followed by `fmt.Errorf(m)`, `externalRequestID` unchanged
(not cleared) and `externalID` empty; it returns requeue-after-delay (20 s);
the store takes that status when it accepts the write; and when `m` is printed
as it is (no `%` in it), the message contains `m`. -/
theorem poll_failed (w : World) (vm : VirtualMachine) (m : String)
    (_hdel : IsZero vm.DeletionTimestamp = true)
    (hreq : vm.Status.ExternalRequestID ≠ "")
    (hpoll : w.getRequestTracker vm.Status.ExternalRequestID =
      .ok ⟨some RequestTrackerStatusFAILED, m⟩) :
    (Reconcile w vm).vm.Status =
      ⟨ErrorStatusPhase, "request failed: " ++ w.errorf m, vm.Status.ExternalRequestID, ""⟩ ∧
    (Reconcile w vm).vm.Status.ExternalRequestID ≠ "" ∧
    (w.statusUpdate (Reconcile w vm).vm = none →
      (Reconcile w vm).stored.Status = (Reconcile w vm).vm.Status) ∧
    (∃ err, (Reconcile w vm).ret = Ret.returned ⟨false, defaultRequeue⟩ err) ∧
    (w.errorf m = m →
      ∃ before after, (Reconcile w vm).vm.Status.LastMessage = before ++ m ++ after) := by
  rw [Reconcile_poll w vm hreq, pollRequest_status w _ _ m hpoll]
  have hst : trackerStatus w RequestTrackerStatusFAILED m vm.Status =
      ⟨ErrorStatusPhase, "request failed: " ++ w.errorf m, vm.Status.ExternalRequestID, ""⟩ := by
    simp only [trackerStatus, if_true, createStatus]
    rfl
  rw [returnStatusUpdate_vm, returnStatusUpdate_ret]
  simp only [Pass.setStatus, Pass.log, hst]
  refine ⟨trivial, hreq, ?_, ⟨_, rfl⟩, ?_⟩
  · intro hsu
    rw [returnStatusUpdate_stored_ok _ _ _ hsu]
  · intro hfmt
    exact ⟨"request failed: ", "", by rw [hfmt]; simp⟩

theorem poll_failed_witness :
    (Reconcile quotaWorld creatingRecord).vm.Status =
      ⟨"ERROR", "request failed: quota exceeded", "r-1", ""⟩ ∧
    (∃ err, (Reconcile quotaWorld creatingRecord).ret =
      Ret.returned ⟨false, defaultRequeue⟩ err) :=
  have h := poll_failed quotaWorld creatingRecord "quota exceeded" (by decide) (by decide) rfl
  ⟨h.1, h.2.2.2.1⟩

/-! ### C7 -/

/-- C7, as stated, fails: the stored status holds the delete request `d-1` and
`externalID = "m-1"`; the poll answers `INPROGRESS`; after the pass
`externalID` is empty, not `m-1`. -/
theorem poll_in_progress_counterexample :
    deletingRecord.Status.ExternalRequestID ≠ "" ∧
    deletingRecord.Status.ExternalID = "m-1" ∧
    (Reconcile inProgressWorld deletingRecord).stored.Status.ExternalID = "" ∧
    (Reconcile inProgressWorld deletingRecord).vm.Status.ExternalID = "" := by
  decide

/-- C7, amended: for a record whose `externalRequestID` is non-empty, when the
poll of that request answers `INPROGRESS`, one pass replaces the status by
`INPROGRESS` / "request in progress" / the same `externalRequestID` / an empty
`externalID`, and changes nothing else of the record (name, namespace,
deletion timestamp, finalizers, `Spec`); it returns requeue-after-delay of
20 s; the stored record is that record when the store accepts the write.  So
`externalID` keeps its value only when it was empty. -/
theorem poll_in_progress (w : World) (vm : VirtualMachine) (m : String)
    (hreq : vm.Status.ExternalRequestID ≠ "")
    (hpoll : w.getRequestTracker vm.Status.ExternalRequestID =
      .ok ⟨some RequestTrackerStatusINPROGRESS, m⟩) :
    (Reconcile w vm).vm = { vm with Status :=
      ⟨InProgressStatusPhase, "request in progress", vm.Status.ExternalRequestID, ""⟩ } ∧
    (∃ err, (Reconcile w vm).ret = Ret.returned ⟨false, 20 * 1000000000⟩ err) ∧
    (w.statusUpdate (Reconcile w vm).vm = none →
      (Reconcile w vm).stored = (Reconcile w vm).vm ∧
      (Reconcile w vm).ret = Ret.returned ⟨false, 20 * 1000000000⟩ none) ∧
    (vm.Status.ExternalID = "" →
      (Reconcile w vm).vm.Status.ExternalID = vm.Status.ExternalID) := by
  rw [Reconcile_poll w vm hreq, pollRequest_status w _ _ m hpoll]
  have hst : trackerStatus w RequestTrackerStatusINPROGRESS m vm.Status =
      ⟨InProgressStatusPhase, "request in progress", vm.Status.ExternalRequestID, ""⟩ := by
    simp [trackerStatus, createStatus, RequestTrackerStatusINPROGRESS,
      RequestTrackerStatusFAILED]
  rw [returnStatusUpdate_vm, returnStatusUpdate_ret]
  simp only [Pass.setStatus, Pass.log, hst]
  refine ⟨trivial, ⟨_, rfl⟩, ?_, ?_⟩
  · intro hsu
    rw [returnStatusUpdate_stored_ok _ _ _ hsu]
    simp only [hsu, errorsWrap]
    exact ⟨trivial, rfl⟩
  · intro h
    exact h.symm

theorem poll_in_progress_witness :
    (Reconcile inProgressWorld creatingRecord).vm = { creatingRecord with Status :=
      ⟨"INPROGRESS", "request in progress", "r-1", ""⟩ } ∧
    (∃ err, (Reconcile inProgressWorld creatingRecord).ret =
      Ret.returned ⟨false, 20 * 1000000000⟩ err) :=
  have h := poll_in_progress inProgressWorld creatingRecord "" (by decide) rfl
  ⟨h.1, h.2.1⟩

/-! ### The existence sync -/

theorem Update_fst_vm (w : World) (site : UpdateSite) (p : Pass) :
    (p.Update w site).1.vm = p.vm := by
  unfold Pass.Update Pass.log
  cases w.update site p.vm <;> rfl

theorem Update_fst_trace (w : World) (site : UpdateSite) (p : Pass) :
    (p.Update w site).1.trace =
      p.trace ++ [Event.Update site p.vm (w.update site p.vm).isNone] := by
  unfold Pass.Update Pass.log
  cases w.update site p.vm <;> rfl

theorem Update_fst_stored_ok (w : World) (site : UpdateSite) (p : Pass)
    (h : w.update site p.vm = none) :
    (p.Update w site).1.stored =
      { p.stored with Finalizers := p.vm.Finalizers, Spec := p.vm.Spec } := by
  unfold Pass.Update
  rw [h]

theorem Reconcile_sync (w : World) (vm : VirtualMachine)
    (hreq : vm.Status.ExternalRequestID = "") (hdel : IsZero vm.DeletionTimestamp = true)
    (hadd : ∀ v, w.update UpdateSite.addFinalizer v = none) :
    Reconcile w vm = syncMachine w (registeredPass vm) := by
  unfold Reconcile registerFinalizer registeredPass registered
  by_cases hfin : containsString vm.Finalizers virtualMachineFinalizer = true
  · simp [hreq, hdel, hfin]
  · simp [hreq, hdel, hfin, Pass.Update, hadd]

theorem registered_Name (vm : VirtualMachine) : (registered vm).Name = vm.Name := by
  unfold registered
  split_ifs <;> rfl

theorem registered_Spec (vm : VirtualMachine) : (registered vm).Spec = vm.Spec := by
  unfold registered
  split_ifs <;> rfl

theorem registered_Status (vm : VirtualMachine) : (registered vm).Status = vm.Status := by
  unfold registered
  split_ifs <;> rfl

theorem externalCalls_registeredPass (vm : VirtualMachine) :
    externalCalls (registeredPass vm).trace = [] := by
  unfold registeredPass externalCalls
  simp only []
  split_ifs <;> rfl

theorem syncMachine_one (w : World) (p : Pass) (m : Machine) (rest : List (Option Machine))
    (id : String)
    (hlook : w.getMachines (machineFilter p.vm.Name) = .ok ⟨1, some m :: rest⟩)
    (hid : m.ID = some id) :
    syncMachine w p = mirrorMachine w (p.log (Event.GetMachines (machineFilter p.vm.Name)))
      (some m) := by
  unfold syncMachine
  simp [hlook, hid, createOrMirror]

theorem syncMachine_zero (w : World) (p : Pass) (content : List (Option Machine))
    (hlook : w.getMachines (machineFilter p.vm.Name) = .ok ⟨0, content⟩) :
    syncMachine w p =
      createOrMirror w (p.log (Event.GetMachines (machineFilter p.vm.Name))) false none := by
  unfold syncMachine
  simp [hlook]

theorem mirrorMachine_some (w : World) (p : Pass) (m : Machine) (id : String)
    (hid : m.ID = some id) :
    mirrorMachine w p (some m) =
      ((Pass.Update w UpdateSite.mirrorSpec
          { p with vm := { p.vm with Spec := mirrorSpec p.vm.Spec m } }).1.setStatus
        (createStatus RunningStatusPhase "ready" none "" id)).returnStatusUpdate w
        Result.empty := by
  unfold mirrorMachine
  simp [hid]

theorem createOrMirror_accepted (w : World) (p : Pass) (requestID : String)
    (hreq : p.vm.Status.ExternalRequestID = "")
    (hcreate : w.createMachine p.vm = .ok (some requestID)) :
    createOrMirror w p false none =
      ((p.log (Event.CreateMachine p.vm)).setStatus (createStatus CreatingStatusPhase
        "created VirtualMachine in vRealize Automation" none requestID "")).returnStatusUpdate
        w Result.empty := by
  unfold createOrMirror
  simp [hreq, hcreate]

/-! ### The mirror pass in closed form -/

theorem Reconcile_mirror (w : World) (vm : VirtualMachine) (m : Machine)
    (rest : List (Option Machine)) (id : String)
    (hdel : IsZero vm.DeletionTimestamp = true)
    (hreq : vm.Status.ExternalRequestID = "")
    (hadd : ∀ v, w.update UpdateSite.addFinalizer v = none)
    (hlook : w.getMachines (machineFilter vm.Name) = .ok ⟨1, some m :: rest⟩)
    (hid : m.ID = some id) :
    Reconcile w vm =
      ((Pass.Update w UpdateSite.mirrorSpec
        { (Pass.log (registeredPass vm) (Event.GetMachines
            (machineFilter (registeredPass vm).vm.Name))) with
          vm := { (registeredPass vm).vm with
            Spec := mirrorSpec (registeredPass vm).vm.Spec m } }).1.setStatus
          (createStatus RunningStatusPhase "ready" none "" id)).returnStatusUpdate w
          Result.empty := by
  have hlook1 : w.getMachines (machineFilter (registeredPass vm).vm.Name) =
      .ok ⟨1, some m :: rest⟩ := by
    rw [← hlook]
    exact congrArg _ (congrArg _ (registered_Name vm))
  rw [Reconcile_sync w vm hreq hdel hadd, syncMachine_one w _ m rest id hlook1 hid,
    mirrorMachine_some w _ m id hid]
  rfl

theorem Reconcile_mirror_vm (w : World) (vm : VirtualMachine) (m : Machine)
    (rest : List (Option Machine)) (id : String)
    (hdel : IsZero vm.DeletionTimestamp = true)
    (hreq : vm.Status.ExternalRequestID = "")
    (hadd : ∀ v, w.update UpdateSite.addFinalizer v = none)
    (hlook : w.getMachines (machineFilter vm.Name) = .ok ⟨1, some m :: rest⟩)
    (hid : m.ID = some id) :
    (Reconcile w vm).vm =
      { registered vm with Spec := mirrorSpec vm.Spec m,
                           Status := ⟨RunningStatusPhase, "ready", "", id⟩ } := by
  rw [Reconcile_mirror w vm m rest id hdel hreq hadd hlook hid, returnStatusUpdate_vm]
  simp only [Pass.setStatus, Update_fst_vm, Pass.log, createStatus, registeredPass,
    registered_Spec]

theorem Reconcile_mirror_calls (w : World) (vm : VirtualMachine) (m : Machine)
    (rest : List (Option Machine)) (id : String)
    (hdel : IsZero vm.DeletionTimestamp = true)
    (hreq : vm.Status.ExternalRequestID = "")
    (hadd : ∀ v, w.update UpdateSite.addFinalizer v = none)
    (hlook : w.getMachines (machineFilter vm.Name) = .ok ⟨1, some m :: rest⟩)
    (hid : m.ID = some id) :
    externalCalls (Reconcile w vm).trace = [Event.GetMachines (machineFilter vm.Name)] := by
  rw [Reconcile_mirror w vm m rest id hdel hreq hadd hlook hid, returnStatusUpdate_trace,
    externalCalls_append]
  have hv : (registeredPass vm).vm = registered vm := rfl
  simp [Pass.setStatus, Update_fst_trace, externalCalls_app, externalCalls_cons,
    externalCalls_nil, Pass.log, externalCalls_registeredPass, Event.isExternal, hv,
    registered_Name]

theorem Reconcile_mirror_ret (w : World) (vm : VirtualMachine) (m : Machine)
    (rest : List (Option Machine)) (id : String)
    (hdel : IsZero vm.DeletionTimestamp = true)
    (hreq : vm.Status.ExternalRequestID = "")
    (hadd : ∀ v, w.update UpdateSite.addFinalizer v = none)
    (hlook : w.getMachines (machineFilter vm.Name) = .ok ⟨1, some m :: rest⟩)
    (hid : m.ID = some id) :
    (Reconcile w vm).ret = Ret.returned ⟨false, 0⟩
      (errorsWrap (w.statusUpdate (Reconcile w vm).vm) "could not update status") := by
  rw [Reconcile_mirror w vm m rest id hdel hreq hadd hlook hid, returnStatusUpdate_ret,
    returnStatusUpdate_vm]
  rfl

theorem Reconcile_mirror_stored (w : World) (vm : VirtualMachine) (m : Machine)
    (rest : List (Option Machine)) (id : String)
    (hdel : IsZero vm.DeletionTimestamp = true)
    (hreq : vm.Status.ExternalRequestID = "")
    (hstore : w.storeOk)
    (hlook : w.getMachines (machineFilter vm.Name) = .ok ⟨1, some m :: rest⟩)
    (hid : m.ID = some id) :
    (Reconcile w vm).stored =
      { registered vm with Spec := mirrorSpec vm.Spec m,
                           Status := ⟨RunningStatusPhase, "ready", "", id⟩ } := by
  obtain ⟨hu, hs⟩ := hstore
  rw [Reconcile_mirror w vm m rest id hdel hreq (hu _) hlook hid,
    returnStatusUpdate_stored_ok _ _ _ (hs _)]
  simp only [Pass.setStatus, Pass.log, Update_fst_vm, Update_fst_stored_ok _ _ _ (hu _ _),
    createStatus, registeredPass, registered_Spec]

/-! ### C9 -/

/-- C9: for a record with no deletion signal and empty `externalRequestID`
(the finalizer write, if one is needed, being accepted), when the lookup
returns the single match `m` with identifier `id`, one pass sets each of the
seventeen mirrored `Spec` fields to the value of `m`, whatever it held, keeps
`Href`, `OrganizationID`, `Flavor`, `Image`, `Constraints` and `Tags`, sets
the status `RUNNING` / "ready" / no request id / `externalID = id`, calls the
service for the lookup only, and returns the empty result (no requeue delay);
when the store accepts the writes, the stored record is that record and no
error is returned. -/
theorem existence_sync_mirrors (w : World) (vm : VirtualMachine) (m : Machine)
    (rest : List (Option Machine)) (id : String)
    (hdel : IsZero vm.DeletionTimestamp = true)
    (hreq : vm.Status.ExternalRequestID = "")
    (hadd : ∀ v, w.update UpdateSite.addFinalizer v = none)
    (hlook : w.getMachines (machineFilter vm.Name) = .ok ⟨1, some m :: rest⟩)
    (hid : m.ID = some id) :
    ((Reconcile w vm).vm.Spec.Address = m.Address ∧
      (Reconcile w vm).vm.Spec.BootConfig = m.BootConfig ∧
      (Reconcile w vm).vm.Spec.CloudAccountIds = m.CloudAccountIds ∧
      (Reconcile w vm).vm.Spec.CreatedAt = m.CreatedAt ∧
      (Reconcile w vm).vm.Spec.CustomProperties = m.CustomProperties ∧
      (Reconcile w vm).vm.Spec.DeploymentID = m.DeploymentID ∧
      (Reconcile w vm).vm.Spec.Description = m.Description ∧
      (Reconcile w vm).vm.Spec.ExternalID = m.ExternalID ∧
      (Reconcile w vm).vm.Spec.ExternalRegionID = m.ExternalRegionID ∧
      (Reconcile w vm).vm.Spec.ExternalZoneID = m.ExternalZoneID ∧
      (Reconcile w vm).vm.Spec.Hostname = m.Hostname ∧
      (Reconcile w vm).vm.Spec.ID = m.ID ∧
      (Reconcile w vm).vm.Spec.OrgID = m.OrgID ∧
      (Reconcile w vm).vm.Spec.Owner = m.Owner ∧
      (Reconcile w vm).vm.Spec.PowerState = m.PowerState ∧
      (Reconcile w vm).vm.Spec.ProjectID = m.ProjectID ∧
      (Reconcile w vm).vm.Spec.UpdatedAt = m.UpdatedAt) ∧
    ((Reconcile w vm).vm.Spec.Flavor = vm.Spec.Flavor ∧
      (Reconcile w vm).vm.Spec.Image = vm.Spec.Image ∧
      (Reconcile w vm).vm.Spec.Constraints = vm.Spec.Constraints ∧
      (Reconcile w vm).vm.Spec.Tags = vm.Spec.Tags ∧
      (Reconcile w vm).vm.Spec.Href = vm.Spec.Href ∧
      (Reconcile w vm).vm.Spec.OrganizationID = vm.Spec.OrganizationID) ∧
    (Reconcile w vm).vm.Status = ⟨RunningStatusPhase, "ready", "", id⟩ ∧
    externalCalls (Reconcile w vm).trace = [Event.GetMachines (machineFilter vm.Name)] ∧
    (∃ err, (Reconcile w vm).ret = Ret.returned ⟨false, 0⟩ err) ∧
    (w.storeOk → (Reconcile w vm).stored = (Reconcile w vm).vm ∧
      (Reconcile w vm).ret = Ret.returned ⟨false, 0⟩ none) := by
  have hvm := Reconcile_mirror_vm w vm m rest id hdel hreq hadd hlook hid
  have hret := Reconcile_mirror_ret w vm m rest id hdel hreq hadd hlook hid
  refine ⟨?_, ?_, ?_, Reconcile_mirror_calls w vm m rest id hdel hreq hadd hlook hid,
    ⟨_, hret⟩, ?_⟩
  · rw [hvm]
    exact ⟨rfl, rfl, rfl, rfl, rfl, rfl, rfl, rfl, rfl, rfl, rfl, rfl, rfl, rfl, rfl, rfl, rfl⟩
  · rw [hvm]
    exact ⟨rfl, rfl, rfl, rfl, rfl, rfl⟩
  · rw [hvm]
  · intro hstore
    refine ⟨?_, ?_⟩
    · rw [Reconcile_mirror_stored w vm m rest id hdel hreq hstore hlook hid, hvm]
    · rw [hret, hstore.2]
      rfl

theorem existence_sync_mirrors_witness :
    (Reconcile finishedWorld runningRecord).vm.Spec.Address = "10.0.0.7" ∧
    (Reconcile finishedWorld runningRecord).vm.Spec.Hostname = "web" ∧
    (Reconcile finishedWorld runningRecord).vm.Spec.Flavor = "small" ∧
    (Reconcile finishedWorld runningRecord).vm.Status = ⟨"RUNNING", "ready", "", "m-1"⟩ :=
  have h := existence_sync_mirrors finishedWorld runningRecord sampleMachine [] "m-1"
    (by decide) rfl (fun _ => rfl) rfl rfl
  ⟨h.1.1, h.1.2.2.2.2.2.2.2.2.2.2.1, h.2.1.1, h.2.2.1⟩

/-! ### The create pass and the poll pass in closed form -/

theorem registered_DeletionTimestamp (vm : VirtualMachine) :
    (registered vm).DeletionTimestamp = vm.DeletionTimestamp := by
  unfold registered
  split_ifs <;> rfl

theorem registered_contains (vm : VirtualMachine) :
    containsString (registered vm).Finalizers virtualMachineFinalizer = true := by
  unfold registered
  split_ifs with h
  · exact h
  · have happ : ∀ l : List String,
        containsString (l ++ [virtualMachineFinalizer]) virtualMachineFinalizer = true := by
      intro l
      induction l with
      | nil => simp [containsString]
      | cons a l ih =>
        by_cases ha : a = virtualMachineFinalizer
        · simp [containsString, ha]
        · simpa [containsString, ha] using ih
    exact happ _

theorem Reconcile_lookup_zero (w : World) (vm : VirtualMachine)
    (content : List (Option Machine))
    (hdel : IsZero vm.DeletionTimestamp = true)
    (hreq : vm.Status.ExternalRequestID = "")
    (hadd : ∀ v, w.update UpdateSite.addFinalizer v = none)
    (hlook : w.getMachines (machineFilter vm.Name) = .ok ⟨0, content⟩) :
    Reconcile w vm =
      createOrMirror w
        ((registeredPass vm).log (Event.GetMachines (machineFilter vm.Name))) false none := by
  have hlook1 : w.getMachines (machineFilter (registeredPass vm).vm.Name) =
      .ok ⟨0, content⟩ := by
    rw [← hlook]
    exact congrArg _ (congrArg _ (registered_Name vm))
  rw [Reconcile_sync w vm hreq hdel hadd, syncMachine_zero w _ content hlook1]
  exact congrArg (fun n => createOrMirror w
    ((registeredPass vm).log (Event.GetMachines (machineFilter n))) false none)
    (registered_Name vm)

theorem createOrMirror_calls (w : World) (p : Pass)
    (hreq : p.vm.Status.ExternalRequestID = "") :
    externalCalls (createOrMirror w p false none).trace =
      externalCalls p.trace ++ [Event.CreateMachine p.vm] := by
  unfold createOrMirror
  simp only [Bool.not_false, if_true, hreq]
  cases w.createMachine p.vm with
  | error err =>
    simp [returnStatusUpdate_trace, externalCalls_app, externalCalls_cons, externalCalls_nil,
      Pass.setStatus, Pass.log, Event.isExternal]
  | ok answer =>
    cases answer with
    | none =>
      simp [Pass.panicked, externalCalls_app, externalCalls_cons, externalCalls_nil, Pass.log,
        Event.isExternal]
    | some requestID =>
      simp [returnStatusUpdate_trace, externalCalls_app, externalCalls_cons, externalCalls_nil,
        Pass.setStatus, Pass.log, Event.isExternal]

theorem Reconcile_create_calls (w : World) (vm : VirtualMachine)
    (content : List (Option Machine))
    (hdel : IsZero vm.DeletionTimestamp = true)
    (hreq : vm.Status.ExternalRequestID = "")
    (hadd : ∀ v, w.update UpdateSite.addFinalizer v = none)
    (hlook : w.getMachines (machineFilter vm.Name) = .ok ⟨0, content⟩) :
    externalCalls (Reconcile w vm).trace =
      [Event.GetMachines (machineFilter vm.Name), Event.CreateMachine (registered vm)] := by
  rw [Reconcile_lookup_zero w vm content hdel hreq hadd hlook, createOrMirror_calls]
  · simp [Pass.log, externalCalls_app, externalCalls_cons, externalCalls_nil,
      externalCalls_registeredPass, Event.isExternal]
    rfl
  · show (registered vm).Status.ExternalRequestID = ""
    rw [registered_Status]
    exact hreq

theorem Reconcile_create_vm (w : World) (vm : VirtualMachine)
    (content : List (Option Machine)) (requestID : String)
    (hdel : IsZero vm.DeletionTimestamp = true)
    (hreq : vm.Status.ExternalRequestID = "")
    (hadd : ∀ v, w.update UpdateSite.addFinalizer v = none)
    (hlook : w.getMachines (machineFilter vm.Name) = .ok ⟨0, content⟩)
    (hcreate : w.createMachine (registered vm) = .ok (some requestID)) :
    (Reconcile w vm).vm = { registered vm with Status :=
        ⟨CreatingStatusPhase, "created VirtualMachine in vRealize Automation", requestID, ""⟩ } ∧
    (Reconcile w vm).ret = Ret.returned Result.empty
      (errorsWrap (w.statusUpdate (Reconcile w vm).vm) "could not update status") ∧
    (w.statusUpdate (Reconcile w vm).vm = none → (Reconcile w vm).stored = (Reconcile w vm).vm) := by
  have hreq1 : ((registeredPass vm).log (Event.GetMachines
      (machineFilter vm.Name))).vm.Status.ExternalRequestID = "" := by
    show (registered vm).Status.ExternalRequestID = ""
    rw [registered_Status]
    exact hreq
  rw [Reconcile_lookup_zero w vm content hdel hreq hadd hlook,
    createOrMirror_accepted w _ requestID hreq1 hcreate, returnStatusUpdate_vm,
    returnStatusUpdate_ret]
  refine ⟨rfl, rfl, ?_⟩
  intro hsu
  rw [returnStatusUpdate_stored_ok _ _ _ hsu]
  rfl

theorem pollRequest_calls (w : World) (p : Pass) :
    externalCalls (pollRequest w p).trace =
      externalCalls p.trace ++ [Event.GetRequestTracker p.vm.Status.ExternalRequestID] := by
  cases hpoll : w.getRequestTracker p.vm.Status.ExternalRequestID with
  | error err =>
    rw [pollRequest_error w _ err hpoll]
    simp [returnStatusUpdate_trace, externalCalls_app, externalCalls_cons, externalCalls_nil,
      Pass.setStatus, Pass.log, Event.isExternal]
  | ok tracker =>
    obtain ⟨st, msg⟩ := tracker
    cases st with
    | none =>
      rw [pollRequest_nil w _ msg hpoll]
      simp [Pass.panicked, externalCalls_app, externalCalls_cons, externalCalls_nil, Pass.log,
        Event.isExternal]
    | some status =>
      rw [pollRequest_status w _ status msg hpoll]
      simp [returnStatusUpdate_trace, externalCalls_app, externalCalls_cons, externalCalls_nil,
        Pass.setStatus, Pass.log, Event.isExternal]

theorem Reconcile_finished (w : World) (vm : VirtualMachine) (message : String)
    (hreq : vm.Status.ExternalRequestID ≠ "")
    (hpoll : w.getRequestTracker vm.Status.ExternalRequestID =
      .ok ⟨some RequestTrackerStatusFINISHED, message⟩) :
    (Reconcile w vm).vm = { vm with Status :=
      ⟨RunningStatusPhase, "request completed", "", ""⟩ } ∧
    (Reconcile w vm).ret = Ret.returned ⟨false, defaultRequeue⟩
      (errorsWrap (w.statusUpdate (Reconcile w vm).vm) "could not update status") ∧
    (w.statusUpdate (Reconcile w vm).vm = none → (Reconcile w vm).stored = (Reconcile w vm).vm) := by
  rw [Reconcile_poll w vm hreq, pollRequest_status w _ _ message hpoll, returnStatusUpdate_vm,
    returnStatusUpdate_ret]
  have hst : trackerStatus w RequestTrackerStatusFINISHED message vm.Status =
      ⟨RunningStatusPhase, "request completed", "", ""⟩ := by
    simp [trackerStatus, createStatus, RequestTrackerStatusINPROGRESS,
      RequestTrackerStatusFAILED, RequestTrackerStatusFINISHED]
  simp only [Pass.setStatus, Pass.log, hst]
  refine ⟨trivial, trivial, ?_⟩
  intro hsu
  rw [returnStatusUpdate_stored_ok _ _ _ hsu]

/-! ### C8 -/

/-- C8, as stated, fails in its second pass: the first pass leaves `CREATING`
and the request id `r-1`; in the next pass the poll of `r-1` answers
`FINISHED` and a lookup would find the one machine `m-1`, but the pass only
polls (no lookup) and leaves `RUNNING` with an empty `externalID`. -/
theorem creation_round_trip_counterexample :
    (Reconcile createWorld freshRecord).stored.Status =
      ⟨"CREATING", "created VirtualMachine in vRealize Automation", "r-1", ""⟩ ∧
    sampleMachine.ID = some "m-1" ∧
    (Reconcile finishedWorld (Reconcile createWorld freshRecord).stored).stored.Status =
      ⟨"RUNNING", "request completed", "", ""⟩ ∧
    (Reconcile finishedWorld (Reconcile createWorld freshRecord).stored).stored.Status.ExternalID
      ≠ "m-1" ∧
    externalCalls (Reconcile finishedWorld (Reconcile createWorld freshRecord).stored).trace =
      [Event.GetRequestTracker "r-1"] := by
  decide

/-- C8, amended: the round trip takes three passes.  For a record with no
deletion signal and empty `externalID` and `externalRequestID`, the store
accepting its writes: if the lookup returns no match and the create submission
returns the non-empty request id `r`, the first pass leaves `CREATING` and
`externalRequestID = r`; if in the second pass the poll of `r` answers
`FINISHED`, that pass only polls, leaves `RUNNING` with `externalRequestID`
and `externalID` both empty, and returns requeue-after-delay; and if in the
third pass the lookup returns exactly one machine with identifier `id`, that
pass leaves `RUNNING`, `externalID = id` and `externalRequestID` empty. -/
theorem creation_round_trip (w1 w2 w3 : World) (vm : VirtualMachine) (r id message : String)
    (content rest : List (Option Machine)) (m : Machine)
    (hdel : IsZero vm.DeletionTimestamp = true)
    (_hid : vm.Status.ExternalID = "") (hreq : vm.Status.ExternalRequestID = "")
    (hs1 : w1.storeOk) (hs2 : w2.storeOk) (hs3 : w3.storeOk)
    (hlook1 : w1.getMachines (machineFilter vm.Name) = .ok ⟨0, content⟩)
    (hcreate : ∀ v, w1.createMachine v = .ok (some r)) (hr : r ≠ "")
    (hpoll : w2.getRequestTracker r = .ok ⟨some RequestTrackerStatusFINISHED, message⟩)
    (hlook3 : w3.getMachines (machineFilter vm.Name) = .ok ⟨1, some m :: rest⟩)
    (hmid : m.ID = some id) :
    (Reconcile w1 vm).stored.Status =
      ⟨CreatingStatusPhase, "created VirtualMachine in vRealize Automation", r, ""⟩ ∧
    (Reconcile w2 (Reconcile w1 vm).stored).stored.Status =
      ⟨RunningStatusPhase, "request completed", "", ""⟩ ∧
    externalCalls (Reconcile w2 (Reconcile w1 vm).stored).trace = [Event.GetRequestTracker r] ∧
    (Reconcile w2 (Reconcile w1 vm).stored).ret = Ret.returned ⟨false, defaultRequeue⟩ none ∧
    (Reconcile w3 (Reconcile w2 (Reconcile w1 vm).stored).stored).stored.Status =
      ⟨RunningStatusPhase, "ready", "", id⟩ := by
  have h1 := Reconcile_create_vm w1 vm content r hdel hreq (hs1.1 _) hlook1 (hcreate _)
  have e1 : (Reconcile w1 vm).stored = { registered vm with Status :=
      ⟨CreatingStatusPhase, "created VirtualMachine in vRealize Automation", r, ""⟩ } := by
    rw [h1.2.2 (hs1.2 _), h1.1]
  have hreq2 : (Reconcile w1 vm).stored.Status.ExternalRequestID ≠ "" := by
    rw [e1]
    exact hr
  have hpoll2 : w2.getRequestTracker (Reconcile w1 vm).stored.Status.ExternalRequestID =
      .ok ⟨some RequestTrackerStatusFINISHED, message⟩ := by
    rw [e1]
    exact hpoll
  have h2 := Reconcile_finished w2 _ message hreq2 hpoll2
  have e2 : (Reconcile w2 (Reconcile w1 vm).stored).stored = { registered vm with Status :=
      ⟨RunningStatusPhase, "request completed", "", ""⟩ } := by
    rw [h2.2.2 (hs2.2 _), h2.1, e1]
  have hcalls2 : externalCalls (Reconcile w2 (Reconcile w1 vm).stored).trace =
      [Event.GetRequestTracker r] := by
    rw [Reconcile_poll w2 _ hreq2, pollRequest_calls]
    simp only [externalCalls_nil, List.nil_append, e1]
  have hret2 : (Reconcile w2 (Reconcile w1 vm).stored).ret =
      Ret.returned ⟨false, defaultRequeue⟩ none := by
    rw [h2.2.1, hs2.2]
    rfl
  have hdel3 : IsZero (Reconcile w2 (Reconcile w1 vm).stored).stored.DeletionTimestamp = true := by
    rw [e2]
    show IsZero (registered vm).DeletionTimestamp = true
    rw [registered_DeletionTimestamp]
    exact hdel
  have hreq3 : (Reconcile w2 (Reconcile w1 vm).stored).stored.Status.ExternalRequestID = "" := by
    rw [e2]
  have hlook3' : w3.getMachines
      (machineFilter (Reconcile w2 (Reconcile w1 vm).stored).stored.Name) =
      .ok ⟨1, some m :: rest⟩ := by
    rw [e2]
    show w3.getMachines (machineFilter (registered vm).Name) = _
    rw [registered_Name]
    exact hlook3
  have e3 := Reconcile_mirror_stored w3 _ m rest id hdel3 hreq3 hs3 hlook3' hmid
  refine ⟨?_, ?_, hcalls2, hret2, ?_⟩
  · rw [e1]
  · rw [e2]
  · rw [e3]

theorem creation_round_trip_witness :
    (Reconcile createWorld freshRecord).stored.Status =
      ⟨"CREATING", "created VirtualMachine in vRealize Automation", "r-1", ""⟩ ∧
    (Reconcile finishedWorld (Reconcile finishedWorld
      (Reconcile createWorld freshRecord).stored).stored).stored.Status =
      ⟨"RUNNING", "ready", "", "m-1"⟩ :=
  have h := creation_round_trip createWorld finishedWorld finishedWorld freshRecord "r-1" "m-1"
    "" [] [] sampleMachine (by decide) rfl rfl ⟨fun _ _ => rfl, fun _ => rfl⟩
    ⟨fun _ _ => rfl, fun _ => rfl⟩ ⟨fun _ _ => rfl, fun _ => rfl⟩ rfl (fun _ => rfl)
    (by decide) rfl rfl rfl
  ⟨h.1, h.2.2.2.2⟩

/-! ### C10 -/

/-- C10, as stated, fails: a running record has `externalID = "m-1"` and the
lookup finds no machine; the same pass submits a create, and the status it
leaves is `CREATING` with the new request id, not `PENDING`. -/
theorem vanished_object_counterexample :
    IsZero runningRecord.DeletionTimestamp = true ∧
    runningRecord.Status.ExternalRequestID = "" ∧
    runningRecord.Status.ExternalID ≠ "" ∧
    externalCalls (Reconcile createWorld runningRecord).trace =
      [Event.GetMachines (machineFilter "web"), Event.CreateMachine runningRecord] ∧
    (Reconcile createWorld runningRecord).stored.Status =
      ⟨"CREATING", "created VirtualMachine in vRealize Automation", "r-1", ""⟩ ∧
    (Reconcile createWorld runningRecord).stored.Status.Phase ≠ PendingStatusPhase := by
  decide

/-- C10, amended: for a record with no deletion signal, empty
`externalRequestID` and non-empty `externalID` (the finalizer write, if one is
needed, being accepted), when the lookup returns zero matches, the same pass
submits the create: its calls to the service are the lookup and one create
submission.  When the service accepts it with request id `r`, the pass leaves
`CREATING` (not `PENDING`), `externalRequestID = r` and `externalID` empty,
returns the empty result, and the store holds that status if it accepts the
write; then, `r` being non-empty, a following pass only polls `r` and submits
no create. -/
theorem vanished_object_recreated (w : World) (vm : VirtualMachine)
    (content : List (Option Machine))
    (hdel : IsZero vm.DeletionTimestamp = true)
    (hreq : vm.Status.ExternalRequestID = "") (_hid : vm.Status.ExternalID ≠ "")
    (hadd : ∀ v, w.update UpdateSite.addFinalizer v = none)
    (hlook : w.getMachines (machineFilter vm.Name) = .ok ⟨0, content⟩) :
    externalCalls (Reconcile w vm).trace =
      [Event.GetMachines (machineFilter vm.Name), Event.CreateMachine (registered vm)] ∧
    (∀ r, w.createMachine (registered vm) = .ok (some r) →
      (Reconcile w vm).vm.Status =
        ⟨CreatingStatusPhase, "created VirtualMachine in vRealize Automation", r, ""⟩ ∧
      (∃ err, (Reconcile w vm).ret = Ret.returned ⟨false, 0⟩ err) ∧
      (w.statusUpdate (Reconcile w vm).vm = none →
        (Reconcile w vm).stored.Status =
          ⟨CreatingStatusPhase, "created VirtualMachine in vRealize Automation", r, ""⟩ ∧
        (r ≠ "" → ∀ w2 : World,
          externalCalls (Reconcile w2 (Reconcile w vm).stored).trace =
            [Event.GetRequestTracker r]))) := by
  refine ⟨Reconcile_create_calls w vm content hdel hreq hadd hlook, ?_⟩
  intro r hcreate
  have h1 := Reconcile_create_vm w vm content r hdel hreq hadd hlook hcreate
  refine ⟨by rw [h1.1], ⟨_, h1.2.1⟩, ?_⟩
  intro hsu
  have e1 : (Reconcile w vm).stored = { registered vm with Status :=
      ⟨CreatingStatusPhase, "created VirtualMachine in vRealize Automation", r, ""⟩ } := by
    rw [h1.2.2 hsu, h1.1]
  refine ⟨by rw [e1], ?_⟩
  intro hr w2
  have hreq2 : (Reconcile w vm).stored.Status.ExternalRequestID ≠ "" := by
    rw [e1]
    exact hr
  rw [Reconcile_poll w2 _ hreq2, pollRequest_calls]
  simp only [externalCalls_nil, List.nil_append, e1]

theorem vanished_object_recreated_witness :
    externalCalls (Reconcile createWorld runningRecord).trace =
      [Event.GetMachines (machineFilter "web"), Event.CreateMachine (registered runningRecord)] ∧
    (Reconcile createWorld runningRecord).vm.Status =
      ⟨"CREATING", "created VirtualMachine in vRealize Automation", "r-1", ""⟩ :=
  have h := vanished_object_recreated createWorld runningRecord [] (by decide) rfl (by decide)
    (fun _ => rfl) rfl
  ⟨h.1, (h.2 "r-1" rfl).1⟩

/-! ### C2 -/

/-- C2 on the code: a fresh record is reconciled against an empty service.
Pass 1 registers the finalizer and submits the creation; the creation finishes
and the service holds the machine tagged `web`; pass 2 polls, sees `FINISHED`
and stores `RUNNING` with an empty `externalID`; the record is then marked for
deletion, and pass 3 removes the finalizer without any call to the service:
no delete was ever submitted and the service still holds the machine. -/
theorem finalizer_removed_while_machine_exists :
    containsString leakPass1.stored.Finalizers virtualMachineFinalizer = true ∧
    externalCalls leakPass1.trace =
      [Event.GetMachines (machineFilter "web"), Event.CreateMachine (registered freshRecord)] ∧
    leakService1.holds "web" = true ∧
    externalCalls leakPass2.trace = [Event.GetRequestTracker "r-"] ∧
    leakPass2.stored.Status = ⟨"RUNNING", "request completed", "", ""⟩ ∧
    containsString leakPass2.stored.Finalizers virtualMachineFinalizer = true ∧
    externalCalls leakPass3.trace = [] ∧
    containsString leakPass3.stored.Finalizers virtualMachineFinalizer = false ∧
    leakPass3.ret = Ret.returned Result.empty none ∧
    leakService3.holds "web" = true ∧
    leakService3.deleteSubmitted = false := by
  decide

/-! ### More branches in closed form -/

theorem syncMachine_error (w : World) (p : Pass) (err : String)
    (hlook : w.getMachines (machineFilter p.vm.Name) = .error err) :
    syncMachine w p =
      ((p.log (Event.GetMachines (machineFilter p.vm.Name))).setStatus
        (createStatus ErrorStatusPhase "unable to get VirtualMachine from vRealize Automation"
          (some err) "" "")).returnStatusUpdate w Result.empty := by
  unfold syncMachine
  simp [hlook]

theorem syncMachine_many (w : World) (p : Pass) (n : Int) (content : List (Option Machine))
    (hlook : w.getMachines (machineFilter p.vm.Name) = .ok ⟨n, content⟩) (hn : 1 < n) :
    syncMachine w p =
      (p.log (Event.GetMachines (machineFilter p.vm.Name))).returned Result.empty
        (some ("found more than one VirtualMachine with tag k8s_name:" ++ quoted p.vm.Name)) := by
  have h0 : n ≠ 0 := by omega
  unfold syncMachine
  simp [hlook, h0, hn]

theorem createOrMirror_failed (w : World) (p : Pass) (err : String)
    (hreq : p.vm.Status.ExternalRequestID = "")
    (hcreate : w.createMachine p.vm = .error err) :
    createOrMirror w p false none =
      ((p.log (Event.CreateMachine p.vm)).setStatus (createStatus ErrorStatusPhase
        "unable to create VirtualMachine in vRealize Automation" (some err) "" "")).returnStatusUpdate
        w Result.empty := by
  unfold createOrMirror
  simp [hreq, hcreate]

theorem createOrMirror_nil (w : World) (p : Pass)
    (hreq : p.vm.Status.ExternalRequestID = "")
    (hcreate : w.createMachine p.vm = .ok none) :
    createOrMirror w p false none = (p.log (Event.CreateMachine p.vm)).panicked := by
  unfold createOrMirror
  simp [hreq, hcreate]

theorem registeredPass_Name (vm : VirtualMachine) :
    (registeredPass vm).vm.Name = vm.Name :=
  registered_Name vm

theorem Reconcile_ambiguous (w : World) (vm : VirtualMachine) (n : Int)
    (content : List (Option Machine))
    (hdel : IsZero vm.DeletionTimestamp = true)
    (hreq : vm.Status.ExternalRequestID = "")
    (hadd : ∀ v, w.update UpdateSite.addFinalizer v = none)
    (hlook : w.getMachines (machineFilter vm.Name) = .ok ⟨n, content⟩) (hn : 1 < n) :
    Reconcile w vm =
      ((registeredPass vm).log (Event.GetMachines (machineFilter vm.Name))).returned Result.empty
        (some ("found more than one VirtualMachine with tag k8s_name:" ++ quoted vm.Name)) := by
  have hlook1 : w.getMachines (machineFilter (registeredPass vm).vm.Name) =
      .ok ⟨n, content⟩ := by
    rw [registeredPass_Name]
    exact hlook
  rw [Reconcile_sync w vm hreq hdel hadd, syncMachine_many w _ n content hlook1 hn,
    registeredPass_Name]

theorem Reconcile_lookup_error (w : World) (vm : VirtualMachine) (err : String)
    (hdel : IsZero vm.DeletionTimestamp = true)
    (hreq : vm.Status.ExternalRequestID = "")
    (hadd : ∀ v, w.update UpdateSite.addFinalizer v = none)
    (hlook : w.getMachines (machineFilter vm.Name) = .error err) :
    Reconcile w vm =
      (((registeredPass vm).log (Event.GetMachines (machineFilter vm.Name))).setStatus
        (createStatus ErrorStatusPhase "unable to get VirtualMachine from vRealize Automation"
          (some err) "" "")).returnStatusUpdate w Result.empty := by
  have hlook1 : w.getMachines (machineFilter (registeredPass vm).vm.Name) = .error err := by
    rw [registeredPass_Name]
    exact hlook
  rw [Reconcile_sync w vm hreq hdel hadd, syncMachine_error w _ err hlook1, registeredPass_Name]

/-! ### C11 -/

/-- C11, as stated, fails in its last part: the lookup reports two machines;
the pass leaves the status as it was and reports the ambiguity error, but the
result it returns is the empty one (`RequeueAfter` is 0), not a
requeue-after-delay. -/
theorem ambiguity_counterexample :
    IsZero runningRecord.DeletionTimestamp = true ∧
    runningRecord.Status.ExternalRequestID = "" ∧
    (Reconcile ambiguousWorld runningRecord).stored.Status = runningRecord.Status ∧
    (Reconcile ambiguousWorld runningRecord).ret =
      Ret.returned ⟨false, 0⟩
        (some ("found more than one VirtualMachine with tag k8s_name:" ++ quoted "web")) ∧
    (∀ err, (Reconcile ambiguousWorld runningRecord).ret ≠
      Ret.returned ⟨false, defaultRequeue⟩ err) := by
  refine ⟨by decide, by decide, by decide, by decide, ?_⟩
  intro err h
  have h2 : (Reconcile ambiguousWorld runningRecord).ret =
      Ret.returned ⟨false, 0⟩
        (some ("found more than one VirtualMachine with tag k8s_name:" ++ quoted "web")) := by
    decide
  rw [h2] at h
  injection h with h3 _
  injection h3 with _ h4
  exact absurd h4 (by decide)

/-- C11, amended: for a record with no deletion signal and empty
`externalRequestID` (the finalizer write, if one is needed, being accepted),
when the lookup reports more than one machine, one pass leaves the whole
status as it was, in memory and in the store, calls the service for the lookup
only (no create, no delete), and returns the ambiguity error together with
the empty result: the retry is left to the error, there is no
requeue-after-delay. -/
theorem ambiguous_lookup (w : World) (vm : VirtualMachine) (n : Int)
    (content : List (Option Machine))
    (hdel : IsZero vm.DeletionTimestamp = true)
    (hreq : vm.Status.ExternalRequestID = "")
    (hadd : ∀ v, w.update UpdateSite.addFinalizer v = none)
    (hlook : w.getMachines (machineFilter vm.Name) = .ok ⟨n, content⟩) (hn : 1 < n) :
    (Reconcile w vm).vm.Status = vm.Status ∧
    (Reconcile w vm).stored.Status = vm.Status ∧
    externalCalls (Reconcile w vm).trace = [Event.GetMachines (machineFilter vm.Name)] ∧
    (Reconcile w vm).ret = Ret.returned Result.empty
      (some ("found more than one VirtualMachine with tag k8s_name:" ++ quoted vm.Name)) := by
  rw [Reconcile_ambiguous w vm n content hdel hreq hadd hlook hn]
  refine ⟨registered_Status vm, registered_Status vm, ?_, rfl⟩
  simp [Pass.returned, Pass.log, externalCalls_app, externalCalls_cons, externalCalls_nil,
    externalCalls_registeredPass, Event.isExternal]

theorem ambiguous_lookup_witness :
    (Reconcile ambiguousWorld runningRecord).stored.Status = runningRecord.Status ∧
    externalCalls (Reconcile ambiguousWorld runningRecord).trace =
      [Event.GetMachines (machineFilter "web")] :=
  have h := ambiguous_lookup ambiguousWorld runningRecord 2
    [some sampleMachine, some sampleMachine] (by decide) rfl (fun _ => rfl) rfl (by decide)
  ⟨h.2.1, h.2.2.1⟩

/-! ### C12 -/

/-- C12, as stated, fails: when the lookup fails, the pass stores `ERROR` with
the error text but returns the empty result and no error, the "none"
directive; and when the delete submission fails, the pass leaves the phase
`RUNNING` as it was and returns the error with the empty result. -/
theorem call_failure_counterexample :
    (Reconcile downWorld freshRecord).stored.Status =
      ⟨"ERROR", "unable to get VirtualMachine from vRealize Automation: connection refused",
        "", ""⟩ ∧
    (Reconcile downWorld freshRecord).ret = Ret.returned ⟨false, 0⟩ none ∧
    (Reconcile downWorld deletedRunningRecord).stored.Status.Phase = "RUNNING" ∧
    (Reconcile downWorld deletedRunningRecord).ret =
      Ret.returned ⟨false, 0⟩ (some "connection refused") := by
  decide

/-- C12, amended: the status write being accepted, a pass in which the poll
call, the lookup or the create submission fails with error text `e` stores
the phase `ERROR` and a message that ends with `e` (after "request tracker
failed: ", "unable to get VirtualMachine from vRealize Automation: " or
"unable to create VirtualMachine in vRealize Automation: "), and returns the
empty result with no error, the "none" directive; a pass in which the delete
submission fails leaves the record as it was and returns the error `e` with
the empty result. -/
theorem external_call_failure (w : World) (vm : VirtualMachine) (e : String)
    (hs : ∀ v, w.statusUpdate v = none) :
    (vm.Status.ExternalRequestID ≠ "" →
      w.getRequestTracker vm.Status.ExternalRequestID = .error e →
      (Reconcile w vm).stored.Status =
        ⟨ErrorStatusPhase, "request tracker failed: " ++ e, vm.Status.ExternalRequestID, ""⟩ ∧
      (Reconcile w vm).ret = Ret.returned Result.empty none) ∧
    (IsZero vm.DeletionTimestamp = true → vm.Status.ExternalRequestID = "" →
      (∀ v, w.update UpdateSite.addFinalizer v = none) →
      w.getMachines (machineFilter vm.Name) = .error e →
      (Reconcile w vm).stored.Status =
        ⟨ErrorStatusPhase, "unable to get VirtualMachine from vRealize Automation: " ++ e,
          "", ""⟩ ∧
      (Reconcile w vm).ret = Ret.returned Result.empty none) ∧
    (∀ content, IsZero vm.DeletionTimestamp = true → vm.Status.ExternalRequestID = "" →
      (∀ v, w.update UpdateSite.addFinalizer v = none) →
      w.getMachines (machineFilter vm.Name) = .ok ⟨0, content⟩ →
      w.createMachine (registered vm) = .error e →
      (Reconcile w vm).stored.Status =
        ⟨ErrorStatusPhase, "unable to create VirtualMachine in vRealize Automation: " ++ e,
          "", ""⟩ ∧
      (Reconcile w vm).ret = Ret.returned Result.empty none) ∧
    (∀ id, IsZero vm.DeletionTimestamp = false →
      containsString vm.Finalizers virtualMachineFinalizer = true →
      vm.Status.ExternalRequestID = "" → vm.Status.ExternalID ≠ "" → vm.Spec.ID = some id →
      w.deleteMachine id = .error e →
      (Reconcile w vm).stored = vm ∧
      (Reconcile w vm).ret = Ret.returned Result.empty (some e)) := by
  refine ⟨?_, ?_, ?_, ?_⟩
  · intro hreq hpoll
    rw [Reconcile_poll w vm hreq, pollRequest_error w _ e hpoll, returnStatusUpdate_ret,
      returnStatusUpdate_stored_ok _ _ _ (hs _), hs]
    exact ⟨rfl, rfl⟩
  · intro hdel hreq hadd hlook
    rw [Reconcile_lookup_error w vm e hdel hreq hadd hlook, returnStatusUpdate_ret,
      returnStatusUpdate_stored_ok _ _ _ (hs _), hs]
    exact ⟨rfl, rfl⟩
  · intro content hdel hreq hadd hlook hcreate
    have hreq1 : ((registeredPass vm).log (Event.GetMachines
        (machineFilter vm.Name))).vm.Status.ExternalRequestID = "" := by
      show (registered vm).Status.ExternalRequestID = ""
      rw [registered_Status]
      exact hreq
    rw [Reconcile_lookup_zero w vm content hdel hreq hadd hlook,
      createOrMirror_failed w _ e hreq1 hcreate, returnStatusUpdate_ret,
      returnStatusUpdate_stored_ok _ _ _ (hs _), hs]
    exact ⟨rfl, rfl⟩
  · intro id hdel hfin hreq hid hspec hcall
    rw [Reconcile_deletion w vm hreq hdel]
    unfold handleDeletion deleteExternalResources
    simp [hfin, hreq, hid, hspec, hcall, Pass.returned, Pass.log]

theorem external_call_failure_witness :
    (Reconcile downWorld creatingRecord).stored.Status =
      ⟨"ERROR", "request tracker failed: connection refused", "r-1", ""⟩ ∧
    (Reconcile downWorld creatingRecord).ret = Ret.returned Result.empty none ∧
    (Reconcile refusedWorld freshRecord).stored.Status =
      ⟨"ERROR", "unable to create VirtualMachine in vRealize Automation: quota exceeded",
        "", ""⟩ :=
  have h := (external_call_failure downWorld creatingRecord "connection refused"
    (fun _ => rfl)).1 (by decide) rfl
  have h2 := (external_call_failure refusedWorld freshRecord "quota exceeded"
    (fun _ => rfl)).2.2.1 [] (by decide) rfl (fun _ => rfl) rfl rfl
  ⟨h.1, h.2, h2.1⟩

/-! ### The calls of a pass, whatever the store answers -/

theorem mirrorMachine_calls (w : World) (p : Pass) (machine : Option Machine) :
    externalCalls (mirrorMachine w p machine).trace = externalCalls p.trace := by
  unfold mirrorMachine
  split
  · rfl
  · simp only []
    split
    · simp [Pass.panicked, Update_fst_trace, externalCalls_app, externalCalls_cons,
        externalCalls_nil, Event.isExternal]
    · simp [returnStatusUpdate_trace, Pass.setStatus, Update_fst_trace, externalCalls_app,
        externalCalls_cons, externalCalls_nil, Event.isExternal]

theorem syncMachine_calls (w : World) (p : Pass) (hreq : p.vm.Status.ExternalRequestID = "") :
    (∃ content, w.getMachines (machineFilter p.vm.Name) = .ok ⟨0, content⟩ ∧
      externalCalls (syncMachine w p).trace =
        externalCalls p.trace ++
          [Event.GetMachines (machineFilter p.vm.Name), Event.CreateMachine p.vm]) ∨
    ((∀ content, w.getMachines (machineFilter p.vm.Name) ≠ .ok ⟨0, content⟩) ∧
      externalCalls (syncMachine w p).trace =
        externalCalls p.trace ++ [Event.GetMachines (machineFilter p.vm.Name)]) := by
  cases hlook : w.getMachines (machineFilter p.vm.Name) with
  | error err =>
    right
    refine ⟨fun _ h => (by cases h), ?_⟩
    rw [syncMachine_error w p err hlook]
    simp [returnStatusUpdate_trace, Pass.setStatus, Pass.log, externalCalls_app,
      externalCalls_cons, externalCalls_nil, Event.isExternal]
  | ok machines =>
    obtain ⟨n, content⟩ := machines
    by_cases h0 : n = 0
    · left
      subst h0
      refine ⟨content, rfl, ?_⟩
      rw [syncMachine_zero w p content hlook, createOrMirror_calls w
        (p.log (Event.GetMachines (machineFilter p.vm.Name))) hreq]
      simp [Pass.log, externalCalls_app, externalCalls_cons, externalCalls_nil,
        Event.isExternal]
    · right
      refine ⟨fun c h => h0 (by injection h with h1; injection h1), ?_⟩
      by_cases h1 : 1 < n
      · rw [syncMachine_many w p n content hlook h1]
        simp [Pass.returned, Pass.log, externalCalls_app, externalCalls_cons,
          externalCalls_nil, Event.isExternal]
      · unfold syncMachine
        simp only [hlook, h0, if_false, gt_iff_lt, h1]
        split
        · simp [Pass.panicked, Pass.log, externalCalls_app, externalCalls_cons,
            externalCalls_nil, Event.isExternal]
        · simp [Pass.panicked, Pass.log, externalCalls_app, externalCalls_cons,
            externalCalls_nil, Event.isExternal]
        · split
          · simp [Pass.panicked, Pass.log, externalCalls_app, externalCalls_cons,
              externalCalls_nil, Event.isExternal]
          · unfold createOrMirror
            simp only [Bool.not_true, Bool.false_eq_true, if_false]
            rw [mirrorMachine_calls]
            simp [Pass.log, externalCalls_app, externalCalls_cons, externalCalls_nil,
              Event.isExternal]

theorem handleDeletion_calls (w : World) (p : Pass) :
    externalCalls (handleDeletion w p).trace = externalCalls p.trace ∨
    (∃ id, p.vm.Spec.ID = some id ∧
      containsString p.vm.Finalizers virtualMachineFinalizer = true ∧
      p.vm.Status.ExternalID ≠ "" ∧
      externalCalls (handleDeletion w p).trace =
        externalCalls p.trace ++ [Event.DeleteMachine id]) := by
  unfold handleDeletion
  split_ifs with hfin
  · unfold deleteExternalResources
    split_ifs with hreq hid
    · left
      simp [hreq, Pass.returned]
    · cases hspec : p.vm.Spec.ID with
      | none =>
        left
        simp [Pass.panicked]
      | some id =>
        right
        refine ⟨id, rfl, hfin, hid, ?_⟩
        simp only []
        cases hcall : w.deleteMachine id with
        | error err => simp [Pass.returned, Pass.log, externalCalls_app, externalCalls_cons,
            externalCalls_nil, Event.isExternal]
        | ok answer =>
          cases answer with
          | none => simp [Pass.panicked, Pass.log, externalCalls_app, externalCalls_cons,
              externalCalls_nil, Event.isExternal]
          | some requestID =>
            simp only [Pass.StatusUpdate, Pass.setStatus, Pass.log, createStatus]
            cases w.statusUpdate _ with
            | some e => simp [errorsWrap, Pass.returned, externalCalls_app, externalCalls_cons,
                externalCalls_nil, Event.isExternal]
            | none =>
              simp only [errorsWrap]
              by_cases hempty : requestID = ""
              · simp only [hempty, if_true, Pass.Update, Pass.log]
                cases w.update UpdateSite.removeFinalizer _ <;>
                  simp [Pass.returned, externalCalls_app, externalCalls_cons,
                    externalCalls_nil, Event.isExternal]
              · simp [hempty, Pass.returned, externalCalls_app, externalCalls_cons,
                  externalCalls_nil, Event.isExternal]
    · left
      simp only [Pass.StatusUpdate, Pass.log]
      cases w.statusUpdate p.vm with
      | some e => simp [errorsWrap, Pass.returned, externalCalls_app, externalCalls_cons,
          externalCalls_nil, Event.isExternal]
      | none =>
        simp only [errorsWrap]
        have hr : p.vm.Status.ExternalRequestID = "" := not_not.mp hreq
        simp only [hr, if_true, Pass.Update, Pass.log]
        cases w.update UpdateSite.removeFinalizer _ <;>
          simp [Pass.returned, externalCalls_app, externalCalls_cons, externalCalls_nil,
            Event.isExternal]
  · left
    rfl

theorem Reconcile_sync_cases (w : World) (vm : VirtualMachine)
    (hreq : vm.Status.ExternalRequestID = "") (hdel : IsZero vm.DeletionTimestamp = true) :
    (∃ err, containsString vm.Finalizers virtualMachineFinalizer = false ∧
      w.update UpdateSite.addFinalizer (registered vm) = some err ∧
      Reconcile w vm =
        { vm := registered vm, stored := vm,
          trace := [Event.Update UpdateSite.addFinalizer (registered vm) false],
          ret := Ret.returned Result.empty (some ("could not add finalizer: " ++ err)) }) ∨
    ((containsString vm.Finalizers virtualMachineFinalizer = true ∨
        w.update UpdateSite.addFinalizer (registered vm) = none) ∧
      Reconcile w vm = syncMachine w (registeredPass vm)) := by
  unfold Reconcile registerFinalizer registeredPass registered
  by_cases hfin : containsString vm.Finalizers virtualMachineFinalizer = true
  · right
    simp [hreq, hdel, hfin]
  · have hfin1 : containsString vm.Finalizers virtualMachineFinalizer = false := by
      simpa using hfin
    cases hup : w.update UpdateSite.addFinalizer
        { vm with Finalizers := vm.Finalizers ++ [virtualMachineFinalizer] } with
    | none =>
      right
      simp [hreq, hdel, hfin1, Pass.Update, hup]
    | some err =>
      left
      refine ⟨err, hfin1, ?_, ?_⟩
      · simp [hfin1, hup]
      · simp [hreq, hdel, hfin1, Pass.Update, hup, Pass.log, Pass.returned, errorsWrap]

/-- The calls a pass makes to the provisioning service, for every world: the
poll alone when a request is recorded; else, under deletion, nothing or the
one delete submission; else nothing (the finalizer write failed), the lookup
alone, or the lookup and one create submission when it found no machine. -/
theorem Reconcile_calls (w : World) (vm : VirtualMachine) :
    (vm.Status.ExternalRequestID ≠ "" ∧
      externalCalls (Reconcile w vm).trace =
        [Event.GetRequestTracker vm.Status.ExternalRequestID]) ∨
    (vm.Status.ExternalRequestID = "" ∧ IsZero vm.DeletionTimestamp = false ∧
      (externalCalls (Reconcile w vm).trace = [] ∨
        ∃ id, vm.Spec.ID = some id ∧
          containsString vm.Finalizers virtualMachineFinalizer = true ∧
          vm.Status.ExternalID ≠ "" ∧
          externalCalls (Reconcile w vm).trace = [Event.DeleteMachine id])) ∨
    (vm.Status.ExternalRequestID = "" ∧ IsZero vm.DeletionTimestamp = true ∧
      (externalCalls (Reconcile w vm).trace = [] ∨
        ((∀ content, w.getMachines (machineFilter vm.Name) ≠ .ok ⟨0, content⟩) ∧
          externalCalls (Reconcile w vm).trace = [Event.GetMachines (machineFilter vm.Name)]) ∨
        (∃ content, w.getMachines (machineFilter vm.Name) = .ok ⟨0, content⟩ ∧
          externalCalls (Reconcile w vm).trace =
            [Event.GetMachines (machineFilter vm.Name),
              Event.CreateMachine (registered vm)]))) := by
  by_cases hreq : vm.Status.ExternalRequestID = ""
  · right
    cases hdel : IsZero vm.DeletionTimestamp with
    | false =>
      left
      refine ⟨hreq, rfl, ?_⟩
      rw [Reconcile_deletion w vm hreq hdel]
      rcases handleDeletion_calls w { vm := vm, stored := vm, trace := [] } with h | ⟨id, h1, h2, h3, h4⟩
      · left
        rw [h]
        rfl
      · right
        refine ⟨id, h1, h2, h3, ?_⟩
        rw [h4]
        rfl
    | true =>
      right
      refine ⟨hreq, rfl, ?_⟩
      rcases Reconcile_sync_cases w vm hreq hdel with ⟨err, _, _, hrun⟩ | ⟨_, hrun⟩
      · left
        rw [hrun]
        rfl
      · right
        rw [hrun]
        have hreq1 : (registeredPass vm).vm.Status.ExternalRequestID = "" := by
          show (registered vm).Status.ExternalRequestID = ""
          rw [registered_Status]
          exact hreq
        rcases syncMachine_calls w (registeredPass vm) hreq1 with ⟨c, h1, h2⟩ | ⟨h1, h2⟩
        · right
          rw [registeredPass_Name] at h1 h2
          refine ⟨c, h1, ?_⟩
          rw [h2, externalCalls_registeredPass]
          rfl
        · left
          rw [registeredPass_Name] at h1 h2
          refine ⟨h1, ?_⟩
          rw [h2, externalCalls_registeredPass]
          rfl
  · left
    refine ⟨hreq, ?_⟩
    rw [Reconcile_poll w vm hreq, pollRequest_calls]
    rfl

/-! ### Two passes against the same answers -/

theorem createCount_externalCalls (trace : List Event) :
    createCount trace = (externalCalls trace).countP Event.isCreate := by
  unfold createCount externalCalls
  induction trace with
  | nil => rfl
  | cons e t ih =>
    cases e <;> simp [List.countP_cons, List.filter_cons, Event.isCreate, Event.isExternal, ih]

theorem deleteCount_externalCalls (trace : List Event) :
    deleteCount trace = (externalCalls trace).countP Event.isDelete := by
  unfold deleteCount externalCalls
  induction trace with
  | nil => rfl
  | cons e t ih =>
    cases e <;> simp [List.countP_cons, List.filter_cons, Event.isDelete, Event.isExternal, ih]

theorem createCount_le_one (w : World) (vm : VirtualMachine) :
    createCount (Reconcile w vm).trace ≤ 1 := by
  rw [createCount_externalCalls]
  rcases Reconcile_calls w vm with ⟨_, h⟩ | ⟨_, _, h | ⟨id, _, _, _, h⟩⟩ |
    ⟨_, _, h | ⟨_, h⟩ | ⟨c, _, h⟩⟩ <;> rw [h] <;> simp [Event.isCreate]

theorem deleteCount_le_one (w : World) (vm : VirtualMachine) :
    deleteCount (Reconcile w vm).trace ≤ 1 := by
  rw [deleteCount_externalCalls]
  rcases Reconcile_calls w vm with ⟨_, h⟩ | ⟨_, _, h | ⟨id, _, _, _, h⟩⟩ |
    ⟨_, _, h | ⟨_, h⟩ | ⟨c, _, h⟩⟩ <;> rw [h] <;> simp [Event.isDelete]

theorem counts_after_request (w : World) (vm : VirtualMachine)
    (hreq : vm.Status.ExternalRequestID ≠ "") :
    createCount (Reconcile w vm).trace = 0 ∧ deleteCount (Reconcile w vm).trace = 0 := by
  rw [createCount_externalCalls, deleteCount_externalCalls, Reconcile_poll w vm hreq,
    pollRequest_calls]
  simp [externalCalls_nil, Event.isCreate, Event.isDelete]

theorem trackerStatus_congr (w : World) (status message : String)
    (a b : VirtualMachineStatus) (h : a.ExternalRequestID = b.ExternalRequestID) :
    trackerStatus w status message a = trackerStatus w status message b := by
  unfold trackerStatus
  rw [h]

theorem trackerStatus_request (w : World) (status message : String)
    (a : VirtualMachineStatus) (h : status ≠ RequestTrackerStatusFINISHED) :
    (trackerStatus w status message a).ExternalRequestID = a.ExternalRequestID := by
  unfold trackerStatus
  split_ifs <;> rfl

theorem poll_uniform (w : World) (r : String) (hr : r ≠ "")
    (hs : ∀ v, w.statusUpdate v = none)
    (hnf : ∀ m, w.getRequestTracker r ≠ .ok ⟨some RequestTrackerStatusFINISHED, m⟩) :
    (∀ vm : VirtualMachine, vm.Status.ExternalRequestID = r → (Reconcile w vm).stored = vm) ∨
    (∃ st : VirtualMachineStatus, st.ExternalRequestID = r ∧
      ∀ vm : VirtualMachine, vm.Status.ExternalRequestID = r →
        (Reconcile w vm).stored.Status = st) := by
  cases hpoll : w.getRequestTracker r with
  | error err =>
    right
    refine ⟨createStatus ErrorStatusPhase "request tracker failed" (some err) r "", rfl, ?_⟩
    intro vm hvm
    subst hvm
    rw [Reconcile_poll w vm hr, pollRequest_error w _ err hpoll,
      returnStatusUpdate_stored_ok _ _ _ (hs _)]
    rfl
  | ok tracker =>
    obtain ⟨st, msg⟩ := tracker
    cases st with
    | none =>
      left
      intro vm hvm
      subst hvm
      rw [Reconcile_poll w vm hr, pollRequest_nil w _ msg hpoll]
      rfl
    | some status =>
      right
      have hne : status ≠ RequestTrackerStatusFINISHED := by
        intro h
        subst h
        exact hnf msg hpoll
      refine ⟨trackerStatus w status msg ⟨"", "", r, ""⟩, ?_, ?_⟩
      · rw [trackerStatus_request w status msg _ hne]
      · intro vm hvm
        subst hvm
        rw [Reconcile_poll w vm hr, pollRequest_status w _ status msg hpoll,
          returnStatusUpdate_stored_ok _ _ _ (hs _)]
        exact trackerStatus_congr w status msg _ _ rfl

theorem syncMachine_found (w : World) (p : Pass) (n : Int) (m : Machine)
    (rest : List (Option Machine)) (id : String)
    (hlook : w.getMachines (machineFilter p.vm.Name) = .ok ⟨n, some m :: rest⟩)
    (hn0 : n ≠ 0) (hn1 : ¬ 1 < n) (hid : m.ID = some id) :
    syncMachine w p = mirrorMachine w (p.log (Event.GetMachines (machineFilter p.vm.Name)))
      (some m) := by
  unfold syncMachine
  simp [hlook, hid, createOrMirror, hn0, hn1]

theorem syncMachine_nohead (w : World) (p : Pass) (n : Int) (content : List (Option Machine))
    (hlook : w.getMachines (machineFilter p.vm.Name) = .ok ⟨n, content⟩)
    (hn0 : n ≠ 0) (hn1 : ¬ 1 < n)
    (hbad : ∀ m rest id, content = some m :: rest → m.ID ≠ some id) :
    syncMachine w p = (p.log (Event.GetMachines (machineFilter p.vm.Name))).panicked := by
  unfold syncMachine
  simp only [hlook, hn0, if_false, gt_iff_lt, hn1]
  split
  · rfl
  · rfl
  · rename_i m rest
    split
    · rfl
    · rename_i id hid
      exact absurd hid (hbad m rest id rfl)

theorem Reconcile_found_stored (w : World) (vm : VirtualMachine) (n : Int) (m : Machine)
    (rest : List (Option Machine)) (id : String)
    (hdel : IsZero vm.DeletionTimestamp = true)
    (hreq : vm.Status.ExternalRequestID = "")
    (hstore : w.storeOk)
    (hlook : w.getMachines (machineFilter vm.Name) = .ok ⟨n, some m :: rest⟩)
    (hn0 : n ≠ 0) (hn1 : ¬ 1 < n) (hid : m.ID = some id) :
    (Reconcile w vm).stored =
      { registered vm with Spec := mirrorSpec vm.Spec m,
                           Status := ⟨RunningStatusPhase, "ready", "", id⟩ } := by
  obtain ⟨hu, hs⟩ := hstore
  have hlook1 : w.getMachines (machineFilter (registeredPass vm).vm.Name) =
      .ok ⟨n, some m :: rest⟩ := by
    rw [registeredPass_Name]
    exact hlook
  rw [Reconcile_sync w vm hreq hdel (hu _), syncMachine_found w _ n m rest id hlook1 hn0 hn1 hid,
    mirrorMachine_some w _ m id hid, returnStatusUpdate_stored_ok _ _ _ (hs _)]
  simp only [Pass.setStatus, Pass.log, Update_fst_vm, Update_fst_stored_ok _ _ _ (hu _ _),
    createStatus, registeredPass, registered_Spec]

theorem Reconcile_nohead (w : World) (vm : VirtualMachine) (n : Int)
    (content : List (Option Machine))
    (hdel : IsZero vm.DeletionTimestamp = true)
    (hreq : vm.Status.ExternalRequestID = "")
    (hadd : ∀ v, w.update UpdateSite.addFinalizer v = none)
    (hlook : w.getMachines (machineFilter vm.Name) = .ok ⟨n, content⟩)
    (hn0 : n ≠ 0) (hn1 : ¬ 1 < n)
    (hbad : ∀ m rest id, content = some m :: rest → m.ID ≠ some id) :
    Reconcile w vm =
      ((registeredPass vm).log (Event.GetMachines (machineFilter vm.Name))).panicked := by
  have hlook1 : w.getMachines (machineFilter (registeredPass vm).vm.Name) =
      .ok ⟨n, content⟩ := by
    rw [registeredPass_Name]
    exact hlook
  rw [Reconcile_sync w vm hreq hdel hadd, syncMachine_nohead w _ n content hlook1 hn0 hn1 hbad,
    registeredPass_Name]

theorem sync_uniform (w : World) (name : String) (hstore : w.storeOk)
    (hnz : ∀ content, w.getMachines (machineFilter name) ≠ .ok ⟨0, content⟩) :
    (∀ vm : VirtualMachine, vm.Name = name → vm.Status.ExternalRequestID = "" →
      IsZero vm.DeletionTimestamp = true → (Reconcile w vm).stored = registered vm) ∨
    (∃ st : VirtualMachineStatus, st.ExternalRequestID = "" ∧
      ∀ vm : VirtualMachine, vm.Name = name → vm.Status.ExternalRequestID = "" →
        IsZero vm.DeletionTimestamp = true →
        (Reconcile w vm).stored.Status = st ∧ (Reconcile w vm).stored.Name = vm.Name ∧
        (Reconcile w vm).stored.DeletionTimestamp = vm.DeletionTimestamp) := by
  have hu := hstore.1
  have hs := hstore.2
  cases hlook : w.getMachines (machineFilter name) with
  | error err =>
    right
    refine ⟨createStatus ErrorStatusPhase
      "unable to get VirtualMachine from vRealize Automation" (some err) "" "", rfl, ?_⟩
    intro vm hname hreq hdel
    subst hname
    rw [Reconcile_lookup_error w vm err hdel hreq (hu _) hlook,
      returnStatusUpdate_stored_ok _ _ _ (hs _)]
    exact ⟨rfl, registered_Name vm, registered_DeletionTimestamp vm⟩
  | ok machines =>
    obtain ⟨n, content⟩ := machines
    have hn0 : n ≠ 0 := by
      intro h
      subst h
      exact hnz content hlook
    by_cases hn1 : 1 < n
    · left
      intro vm hname hreq hdel
      subst hname
      rw [Reconcile_ambiguous w vm n content hdel hreq (hu _) hlook hn1]
      rfl
    · by_cases hgood : ∃ m rest id, content = some m :: rest ∧ m.ID = some id
      · obtain ⟨m, rest, id, hc, hid⟩ := hgood
        subst hc
        right
        refine ⟨⟨RunningStatusPhase, "ready", "", id⟩, rfl, ?_⟩
        intro vm hname hreq hdel
        subst hname
        rw [Reconcile_found_stored w vm n m rest id hdel hreq hstore hlook hn0 hn1 hid]
        exact ⟨rfl, registered_Name vm, registered_DeletionTimestamp vm⟩
      · left
        intro vm hname hreq hdel
        subst hname
        have hbad : ∀ m rest id, content = some m :: rest → m.ID ≠ some id := by
          intro m rest id hc hid
          exact hgood ⟨m, rest, id, hc, hid⟩
        rw [Reconcile_nohead w vm n content hdel hreq (hu _) hlook hn0 hn1 hbad]
        rfl

theorem Reconcile_deletion_nofinalizer (w : World) (vm : VirtualMachine)
    (hreq : vm.Status.ExternalRequestID = "") (hdel : IsZero vm.DeletionTimestamp = false)
    (hfin : containsString vm.Finalizers virtualMachineFinalizer = false) :
    Reconcile w vm =
      { vm := vm, stored := vm, trace := [], ret := Ret.returned Result.empty none } := by
  rw [Reconcile_deletion w vm hreq hdel]
  unfold handleDeletion
  simp [hfin, Pass.returned]

theorem Reconcile_deletion_bare (w : World) (vm : VirtualMachine)
    (hreq : vm.Status.ExternalRequestID = "") (hdel : IsZero vm.DeletionTimestamp = false)
    (hfin : containsString vm.Finalizers virtualMachineFinalizer = true)
    (hid : vm.Status.ExternalID = "") (hstore : w.storeOk) :
    (Reconcile w vm).stored =
      { vm with Finalizers := removeString vm.Finalizers virtualMachineFinalizer } := by
  obtain ⟨hu, hs⟩ := hstore
  simp [Reconcile, handleDeletion, deleteExternalResources, Pass.StatusUpdate, Pass.Update, hdel,
    hfin, hid, hreq, hu, hs, errorsWrap, Pass.returned]

theorem Reconcile_deletion_nospec (w : World) (vm : VirtualMachine)
    (hreq : vm.Status.ExternalRequestID = "") (hdel : IsZero vm.DeletionTimestamp = false)
    (hfin : containsString vm.Finalizers virtualMachineFinalizer = true)
    (hid : vm.Status.ExternalID ≠ "") (hspec : vm.Spec.ID = none) :
    Reconcile w vm = { vm := vm, stored := vm, trace := [], ret := Ret.panicked } := by
  rw [Reconcile_deletion w vm hreq hdel]
  unfold handleDeletion deleteExternalResources
  simp [hfin, hreq, hid, hspec, Pass.panicked]

theorem Reconcile_delete_calls (w : World) (vm : VirtualMachine) (id : String)
    (hreq : vm.Status.ExternalRequestID = "") (hdel : IsZero vm.DeletionTimestamp = false)
    (hfin : containsString vm.Finalizers virtualMachineFinalizer = true)
    (hid : vm.Status.ExternalID ≠ "") (hspec : vm.Spec.ID = some id) :
    externalCalls (Reconcile w vm).trace = [Event.DeleteMachine id] := by
  rcases Reconcile_calls w vm with ⟨h, _⟩ | ⟨_, _, h⟩ | ⟨_, h, _⟩
  · exact absurd hreq h
  · rcases h with h | ⟨id1, h1, _, _, h2⟩
    · exfalso
      rw [Reconcile_deletion w vm hreq hdel] at h
      unfold handleDeletion deleteExternalResources at h
      simp only [hfin, hreq, hid, hspec, if_true, ne_eq, not_true_eq_false, not_false_eq_true,
        if_false] at h
      cases hcall : w.deleteMachine id with
      | error err =>
        simp [hcall, Pass.returned, Pass.log, externalCalls, Event.isExternal] at h
      | ok answer =>
        cases answer with
        | none => simp [hcall, Pass.panicked, Pass.log, externalCalls, Event.isExternal] at h
        | some requestID =>
          simp only [hcall, Pass.StatusUpdate, Pass.setStatus, Pass.log, createStatus] at h
          cases hsu : w.statusUpdate
              { vm with Status :=
                ⟨PendingStatusPhase, "deleting Virtual Machine", requestID,
                  vm.Status.ExternalID⟩ } with
          | some e =>
            simp [hsu, errorsWrap, Pass.returned, externalCalls, Event.isExternal] at h
          | none =>
            simp only [hsu, errorsWrap] at h
            by_cases hempty : requestID = ""
            · simp only [hempty, if_true, Pass.Update, Pass.log] at h
              cases hup : w.update UpdateSite.removeFinalizer
                  { vm with
                    Finalizers := removeString vm.Finalizers virtualMachineFinalizer
                    Status := ⟨PendingStatusPhase, "deleting Virtual Machine", "",
                      vm.Status.ExternalID⟩ } <;>
                simp [hup, Pass.returned, externalCalls, Event.isExternal] at h
            · simp [hempty, Pass.returned, externalCalls, Event.isExternal] at h
    · rw [h2]
      rw [hspec] at h1
      injection h1 with h1
      rw [h1]
  · rw [hdel] at h
    cases h

/-! ### Repeated submissions -/

theorem registered_of_contains (vm : VirtualMachine)
    (h : containsString vm.Finalizers virtualMachineFinalizer = true) : registered vm = vm := by
  unfold registered
  simp [h]

theorem registered_Finalizers_contains (vm v : VirtualMachine)
    (h : v.Finalizers = (registered vm).Finalizers) :
    containsString v.Finalizers virtualMachineFinalizer = true := by
  rw [h]
  exact registered_contains vm

theorem Reconcile_create_failed_stored (w : World) (vm : VirtualMachine)
    (content : List (Option Machine)) (err : String)
    (hdel : IsZero vm.DeletionTimestamp = true)
    (hreq : vm.Status.ExternalRequestID = "") (hstore : w.storeOk)
    (hlook : w.getMachines (machineFilter vm.Name) = .ok ⟨0, content⟩)
    (hcreate : w.createMachine (registered vm) = .error err) :
    (Reconcile w vm).stored = { registered vm with Status :=
      (createStatus ErrorStatusPhase "unable to create VirtualMachine in vRealize Automation"
        (some err) "" "") } := by
  have hreq1 : ((registeredPass vm).log (Event.GetMachines
      (machineFilter vm.Name))).vm.Status.ExternalRequestID = "" := by
    show (registered vm).Status.ExternalRequestID = ""
    rw [registered_Status]
    exact hreq
  rw [Reconcile_lookup_zero w vm content hdel hreq (hstore.1 _) hlook,
    createOrMirror_failed w _ err hreq1 hcreate, returnStatusUpdate_stored_ok _ _ _ (hstore.2 _)]
  rfl

theorem Reconcile_create_nil_stored (w : World) (vm : VirtualMachine)
    (content : List (Option Machine))
    (hdel : IsZero vm.DeletionTimestamp = true)
    (hreq : vm.Status.ExternalRequestID = "") (hstore : w.storeOk)
    (hlook : w.getMachines (machineFilter vm.Name) = .ok ⟨0, content⟩)
    (hcreate : w.createMachine (registered vm) = .ok none) :
    (Reconcile w vm).stored = registered vm := by
  have hreq1 : ((registeredPass vm).log (Event.GetMachines
      (machineFilter vm.Name))).vm.Status.ExternalRequestID = "" := by
    show (registered vm).Status.ExternalRequestID = ""
    rw [registered_Status]
    exact hreq
  rw [Reconcile_lookup_zero w vm content hdel hreq (hstore.1 _) hlook,
    createOrMirror_nil w _ hreq1 hcreate]
  rfl

theorem Reconcile_create_accepted_stored (w : World) (vm : VirtualMachine)
    (content : List (Option Machine)) (requestID : String)
    (hdel : IsZero vm.DeletionTimestamp = true)
    (hreq : vm.Status.ExternalRequestID = "") (hstore : w.storeOk)
    (hlook : w.getMachines (machineFilter vm.Name) = .ok ⟨0, content⟩)
    (hcreate : w.createMachine (registered vm) = .ok (some requestID)) :
    (Reconcile w vm).stored = { registered vm with Status :=
      ⟨CreatingStatusPhase, "created VirtualMachine in vRealize Automation", requestID, ""⟩ } := by
  have h := Reconcile_create_vm w vm content requestID hdel hreq (hstore.1 _) hlook hcreate
  rw [h.2.2 (hstore.2 _), h.1]

/-- Two records with the same name before the same zero-match lookup, whose
create submissions get the same answer: either both passes stop at the nil id
and leave the status alone, or both store the same status. -/
theorem create_congr (w : World) (v v1 : VirtualMachine) (content : List (Option Machine))
    (hstore : w.storeOk)
    (hdel : IsZero v.DeletionTimestamp = true) (hdel1 : IsZero v1.DeletionTimestamp = true)
    (hreq : v.Status.ExternalRequestID = "") (hreq1 : v1.Status.ExternalRequestID = "")
    (hname : v1.Name = v.Name)
    (hlook : w.getMachines (machineFilter v.Name) = .ok ⟨0, content⟩)
    (hsame : w.createMachine (registered v1) = w.createMachine (registered v)) :
    ((Reconcile w v).stored = registered v ∧ (Reconcile w v1).stored = registered v1) ∨
    (Reconcile w v1).stored.Status = (Reconcile w v).stored.Status := by
  have hlook1 : w.getMachines (machineFilter v1.Name) = .ok ⟨0, content⟩ := by
    rw [hname]
    exact hlook
  cases hcreate : w.createMachine (registered v) with
  | error err =>
    right
    rw [Reconcile_create_failed_stored w v content err hdel hreq hstore hlook hcreate,
      Reconcile_create_failed_stored w v1 content err hdel1 hreq1 hstore hlook1
        (hsame.trans hcreate)]
  | ok answer =>
    cases answer with
    | none =>
      left
      exact ⟨Reconcile_create_nil_stored w v content hdel hreq hstore hlook hcreate,
        Reconcile_create_nil_stored w v1 content hdel1 hreq1 hstore hlook1
          (hsame.trans hcreate)⟩
    | some requestID =>
      right
      rw [Reconcile_create_accepted_stored w v content requestID hdel hreq hstore hlook hcreate,
        Reconcile_create_accepted_stored w v1 content requestID hdel1 hreq1 hstore hlook1
          (hsame.trans hcreate)]

theorem Reconcile_create_frame (w : World) (vm : VirtualMachine)
    (content : List (Option Machine))
    (hdel : IsZero vm.DeletionTimestamp = true)
    (hreq : vm.Status.ExternalRequestID = "") (hstore : w.storeOk)
    (hlook : w.getMachines (machineFilter vm.Name) = .ok ⟨0, content⟩) :
    (Reconcile w vm).stored.Name = vm.Name ∧
    (Reconcile w vm).stored.DeletionTimestamp = vm.DeletionTimestamp ∧
    (Reconcile w vm).stored.Finalizers = (registered vm).Finalizers := by
  cases hcreate : w.createMachine (registered vm) with
  | error err =>
    rw [Reconcile_create_failed_stored w vm content err hdel hreq hstore hlook hcreate]
    exact ⟨registered_Name vm, registered_DeletionTimestamp vm, rfl⟩
  | ok answer =>
    cases answer with
    | none =>
      rw [Reconcile_create_nil_stored w vm content hdel hreq hstore hlook hcreate]
      exact ⟨registered_Name vm, registered_DeletionTimestamp vm, rfl⟩
    | some requestID =>
      rw [Reconcile_create_accepted_stored w vm content requestID hdel hreq hstore hlook
        hcreate]
      exact ⟨registered_Name vm, registered_DeletionTimestamp vm, rfl⟩

theorem Reconcile_delete_error_stored (w : World) (vm : VirtualMachine) (id err : String)
    (hreq : vm.Status.ExternalRequestID = "") (hdel : IsZero vm.DeletionTimestamp = false)
    (hfin : containsString vm.Finalizers virtualMachineFinalizer = true)
    (hid : vm.Status.ExternalID ≠ "") (hspec : vm.Spec.ID = some id)
    (hcall : w.deleteMachine id = .error err) :
    (Reconcile w vm).stored = vm := by
  rw [Reconcile_deletion w vm hreq hdel]
  unfold handleDeletion deleteExternalResources
  simp [hfin, hreq, hid, hspec, hcall, Pass.returned, Pass.log]

theorem Reconcile_delete_nil_stored (w : World) (vm : VirtualMachine) (id : String)
    (hreq : vm.Status.ExternalRequestID = "") (hdel : IsZero vm.DeletionTimestamp = false)
    (hfin : containsString vm.Finalizers virtualMachineFinalizer = true)
    (hid : vm.Status.ExternalID ≠ "") (hspec : vm.Spec.ID = some id)
    (hcall : w.deleteMachine id = .ok none) :
    (Reconcile w vm).stored = vm := by
  rw [Reconcile_deletion w vm hreq hdel]
  unfold handleDeletion deleteExternalResources
  simp [hfin, hreq, hid, hspec, hcall, Pass.panicked, Pass.log]

theorem Reconcile_delete_accepted_stored (w : World) (vm : VirtualMachine)
    (id requestID : String)
    (hreq : vm.Status.ExternalRequestID = "") (hdel : IsZero vm.DeletionTimestamp = false)
    (hfin : containsString vm.Finalizers virtualMachineFinalizer = true)
    (hid : vm.Status.ExternalID ≠ "") (hspec : vm.Spec.ID = some id)
    (hstore : w.storeOk)
    (hcall : w.deleteMachine id = .ok (some requestID)) :
    (requestID ≠ "" → (Reconcile w vm).stored = { vm with Status :=
      ⟨PendingStatusPhase, "deleting Virtual Machine", requestID, vm.Status.ExternalID⟩ }) ∧
    (requestID = "" → (Reconcile w vm).stored = { vm with
      Finalizers := removeString vm.Finalizers virtualMachineFinalizer
      Status := ⟨PendingStatusPhase, "deleting Virtual Machine", "", vm.Status.ExternalID⟩ }) := by
  obtain ⟨hu, hs⟩ := hstore
  rw [Reconcile_deletion w vm hreq hdel]
  unfold handleDeletion deleteExternalResources
  simp only [hfin, hreq, hid, hspec, hcall, if_true, ne_eq, not_true_eq_false,
    not_false_eq_true, if_false, Pass.StatusUpdate, Pass.setStatus, Pass.log, createStatus, hs,
    errorsWrap]
  constructor
  · intro hne
    simp [hne, Pass.returned]
  · intro he
    subst he
    simp [Pass.Update, hu, Pass.returned]

/-! ### C13 -/

/-- C13, as stated, fails.  With the answers fixed (lookup: no machine,
create: accepted as `r-1`, poll: `INPROGRESS`), the first pass on a fresh
record leaves `CREATING` and the second leaves `INPROGRESS`: the statuses
differ.  With the create submission refused in both passes, each of the two
passes submits a create: two submissions.  A pass that reads `FINISHED` leaves
"request completed" and the next one, with the same answers, leaves "ready"
with the machine's id.  And after an accepted delete the first pass leaves
`PENDING` and the second, whose poll fails, leaves `ERROR`. -/
theorem idempotence_counterexample :
    (Reconcile slowWorld freshRecord).stored.Status =
      ⟨"CREATING", "created VirtualMachine in vRealize Automation", "r-1", ""⟩ ∧
    (Reconcile slowWorld (Reconcile slowWorld freshRecord).stored).stored.Status =
      ⟨"INPROGRESS", "request in progress", "r-1", ""⟩ ∧
    (Reconcile slowWorld (Reconcile slowWorld freshRecord).stored).stored.Status ≠
      (Reconcile slowWorld freshRecord).stored.Status ∧
    createCount (Reconcile refusedWorld freshRecord).trace +
      createCount (Reconcile refusedWorld (Reconcile refusedWorld freshRecord).stored).trace
      = 2 ∧
    (Reconcile finishedWorld creatingRecord).stored.Status =
      ⟨"RUNNING", "request completed", "", ""⟩ ∧
    (Reconcile finishedWorld (Reconcile finishedWorld creatingRecord).stored).stored.Status =
      ⟨"RUNNING", "ready", "", "m-1"⟩ ∧
    (Reconcile deleteAcceptedWorld deletedRunningRecord).stored.Status =
      ⟨"PENDING", "deleting Virtual Machine", "d-1", "m-1"⟩ ∧
    (Reconcile deleteAcceptedWorld
      (Reconcile deleteAcceptedWorld deletedRunningRecord).stored).stored.Status =
      ⟨"ERROR", "request tracker failed: connection refused", "d-1", ""⟩ := by
  decide

/-- C13, amended: with the same world in both passes and the store accepting
its writes, two passes in succession leave the same status provided the first
pass leaves `externalRequestID` as it found it (it neither opens a request,
by a submission accepted with a request id, nor closes one, on `FINISHED`) and
a create submission of the second pass, if the first pass submitted one, gets
the answer the first one got; a refused create or delete is among these.
Each pass submits at most one create and at most one delete; after a pass
that leaves `externalRequestID` non-empty the next pass submits neither; so a
create is submitted at most once across the two passes when the first pass
submits none or leaves a request id, and a delete at most once when the first
pass submits none or its delete is accepted.  The status is also the same
after a first pass that reads `FINISHED` on a record marked for deletion. -/
theorem reconcile_twice (w : World) (vm : VirtualMachine) (hstore : w.storeOk) :
    ((Reconcile w vm).stored.Status.ExternalRequestID = vm.Status.ExternalRequestID →
      (createCount (Reconcile w vm).trace = 0 ∨
        w.createMachine (Reconcile w vm).stored = w.createMachine (registered vm)) →
      (Reconcile w (Reconcile w vm).stored).stored.Status = (Reconcile w vm).stored.Status) ∧
    (createCount (Reconcile w vm).trace ≤ 1 ∧ deleteCount (Reconcile w vm).trace ≤ 1 ∧
      createCount (Reconcile w (Reconcile w vm).stored).trace ≤ 1 ∧
      deleteCount (Reconcile w (Reconcile w vm).stored).trace ≤ 1) ∧
    ((Reconcile w vm).stored.Status.ExternalRequestID ≠ "" →
      createCount (Reconcile w (Reconcile w vm).stored).trace = 0 ∧
      deleteCount (Reconcile w (Reconcile w vm).stored).trace = 0) ∧
    (createCount (Reconcile w vm).trace = 0 ∨
        (Reconcile w vm).stored.Status.ExternalRequestID ≠ "" →
      createCount (Reconcile w vm).trace +
        createCount (Reconcile w (Reconcile w vm).stored).trace ≤ 1) ∧
    (deleteCount (Reconcile w vm).trace = 0 ∨
        (∃ id requestID, vm.Spec.ID = some id ∧
          w.deleteMachine id = .ok (some requestID)) →
      deleteCount (Reconcile w vm).trace +
        deleteCount (Reconcile w (Reconcile w vm).stored).trace ≤ 1) ∧
    (∀ m, vm.Status.ExternalRequestID ≠ "" →
      w.getRequestTracker vm.Status.ExternalRequestID =
        .ok ⟨some RequestTrackerStatusFINISHED, m⟩ →
      IsZero vm.DeletionTimestamp = false →
      (Reconcile w (Reconcile w vm).stored).stored.Status = (Reconcile w vm).stored.Status) := by
  have hu := hstore.1
  have hs := hstore.2
  refine ⟨?_, ⟨createCount_le_one w vm, deleteCount_le_one w vm, createCount_le_one w _,
    deleteCount_le_one w _⟩, fun h => counts_after_request w _ h, ?_, ?_, ?_⟩
  · intro hkeep hsame
    by_cases hreq : vm.Status.ExternalRequestID = ""
    · cases hdel : IsZero vm.DeletionTimestamp with
      | true =>
        by_cases hz : ∃ content, w.getMachines (machineFilter vm.Name) = .ok ⟨0, content⟩
        · obtain ⟨content, hlook⟩ := hz
          have hcr : w.createMachine (Reconcile w vm).stored =
              w.createMachine (registered vm) := by
            rcases hsame with h | h
            · exfalso
              have hcalls := Reconcile_create_calls w vm content hdel hreq (hu _) hlook
              rw [createCount_externalCalls, hcalls] at h
              simp [Event.isCreate] at h
            · exact h
          obtain ⟨n1, d1, f1⟩ := Reconcile_create_frame w vm content hdel hreq hstore hlook
          have hfin1 := registered_Finalizers_contains vm _ f1
          have hreq1 : (Reconcile w vm).stored.Status.ExternalRequestID = "" := by
            rw [hkeep]
            exact hreq
          have hdel1 : IsZero (Reconcile w vm).stored.DeletionTimestamp = true := by
            rw [d1]
            exact hdel
          have hsame1 : w.createMachine (registered (Reconcile w vm).stored) =
              w.createMachine (registered vm) := by
            rw [registered_of_contains _ hfin1]
            exact hcr
          rcases create_congr w vm (Reconcile w vm).stored content hstore hdel hdel1 hreq hreq1
            n1 hlook hsame1 with ⟨_, e2⟩ | h
          · rw [e2, registered_Status]
          · exact h
        · have hnz : ∀ content,
              w.getMachines (machineFilter vm.Name) ≠ .ok ⟨0, content⟩ := by
            intro content h
            exact hz ⟨content, h⟩
          rcases sync_uniform w vm.Name hstore hnz with h | ⟨st, hst, h⟩
          · rw [h vm rfl hreq hdel, h (registered vm) (registered_Name vm)
              (by rw [registered_Status]; exact hreq)
              (by rw [registered_DeletionTimestamp]; exact hdel), registered_Status]
          · obtain ⟨e1, n1, d1⟩ := h vm rfl hreq hdel
            have h2 := h (Reconcile w vm).stored n1 (by rw [e1]; exact hst)
              (by rw [d1]; exact hdel)
            rw [h2.1, e1]
      | false =>
        cases hfin : containsString vm.Finalizers virtualMachineFinalizer with
        | false =>
          have e1 : (Reconcile w vm).stored = vm := by
            rw [Reconcile_deletion_nofinalizer w vm hreq hdel hfin]
          rw [e1, e1]
        | true =>
          by_cases hid : vm.Status.ExternalID = ""
          · have e1 := Reconcile_deletion_bare w vm hreq hdel hfin hid hstore
            rw [e1, Reconcile_deletion_nofinalizer w
              { vm with Finalizers := removeString vm.Finalizers virtualMachineFinalizer }
              hreq hdel (containsString_removeString vm.Finalizers virtualMachineFinalizer)]
          · cases hspec : vm.Spec.ID with
            | none =>
              have e1 : (Reconcile w vm).stored = vm := by
                rw [Reconcile_deletion_nospec w vm hreq hdel hfin hid hspec]
              rw [e1, e1]
            | some id =>
              cases hcall : w.deleteMachine id with
              | error err =>
                have e1 := Reconcile_delete_error_stored w vm id err hreq hdel hfin hid hspec
                  hcall
                rw [e1, e1]
              | ok answer =>
                cases answer with
                | none =>
                  have e1 := Reconcile_delete_nil_stored w vm id hreq hdel hfin hid hspec hcall
                  rw [e1, e1]
                | some requestID =>
                  have hacc := Reconcile_delete_accepted_stored w vm id requestID hreq hdel
                    hfin hid hspec hstore hcall
                  by_cases hempty : requestID = ""
                  · rw [hacc.2 hempty, Reconcile_deletion_nofinalizer w
                      { vm with
                        Finalizers := removeString vm.Finalizers virtualMachineFinalizer
                        Status := ⟨PendingStatusPhase, "deleting Virtual Machine", "",
                          vm.Status.ExternalID⟩ }
                      rfl hdel
                      (containsString_removeString vm.Finalizers virtualMachineFinalizer)]
                  · exfalso
                    rw [hacc.1 hempty, hreq] at hkeep
                    exact hempty hkeep
    · have hnf : ∀ m, w.getRequestTracker vm.Status.ExternalRequestID ≠
          .ok ⟨some RequestTrackerStatusFINISHED, m⟩ := by
        intro m h
        have hf := Reconcile_finished w vm m hreq h
        rw [hf.2.2 (hs _), hf.1] at hkeep
        exact hreq hkeep.symm
      rcases poll_uniform w vm.Status.ExternalRequestID hreq hs hnf with h | ⟨st, hst, h⟩
      · rw [h vm rfl, h vm rfl]
      · have e1 := h vm rfl
        rw [h (Reconcile w vm).stored (by rw [e1]; exact hst), e1]
  · intro h
    have hb1 := createCount_le_one w vm
    have hb2 := createCount_le_one w (Reconcile w vm).stored
    rcases h with h | h
    · omega
    · have h0 := (counts_after_request w _ h).1
      omega
  · intro h
    have hb1 := deleteCount_le_one w vm
    have hb2 := deleteCount_le_one w (Reconcile w vm).stored
    rcases h with h | ⟨id, requestID, hspec, hcall⟩
    · omega
    · by_cases hd0 : deleteCount (Reconcile w vm).trace = 0
      · omega
      · have hsecond : deleteCount (Reconcile w (Reconcile w vm).stored).trace = 0 := by
          rcases Reconcile_calls w vm with ⟨_, hc⟩ | ⟨hreq, hdel, hc | ⟨id1, hs1, hfin, hid, _⟩⟩ |
            ⟨_, _, hc | ⟨_, hc⟩ | ⟨c, _, hc⟩⟩
          · exfalso
            rw [deleteCount_externalCalls, hc] at hd0
            simp [Event.isDelete] at hd0
          · exfalso
            rw [deleteCount_externalCalls, hc] at hd0
            simp [Event.isDelete] at hd0
          · have hidd : id1 = id := by
              rw [hspec] at hs1
              injection hs1 with hs1
              exact hs1.symm
            subst hidd
            have hacc := Reconcile_delete_accepted_stored w vm id1 requestID hreq hdel hfin
              hid hspec hstore hcall
            by_cases hempty : requestID = ""
            · rw [hacc.2 hempty, Reconcile_deletion_nofinalizer w
                { vm with
                  Finalizers := removeString vm.Finalizers virtualMachineFinalizer
                  Status := ⟨PendingStatusPhase, "deleting Virtual Machine", "",
                    vm.Status.ExternalID⟩ }
                rfl hdel (containsString_removeString vm.Finalizers virtualMachineFinalizer)]
              rfl
            · have hne : (Reconcile w vm).stored.Status.ExternalRequestID ≠ "" := by
                rw [hacc.1 hempty]
                exact hempty
              exact (counts_after_request w _ hne).2
          · exfalso
            rw [deleteCount_externalCalls, hc] at hd0
            simp [Event.isDelete] at hd0
          · exfalso
            rw [deleteCount_externalCalls, hc] at hd0
            simp [Event.isDelete] at hd0
          · exfalso
            rw [deleteCount_externalCalls, hc] at hd0
            simp [Event.isDelete] at hd0
        omega
  · intro m hreq hpoll hdel
    have hf := Reconcile_finished w vm m hreq hpoll
    have e1 : (Reconcile w vm).stored =
        { vm with Status := ⟨RunningStatusPhase, "request completed", "", ""⟩ } := by
      rw [hf.2.2 (hs _), hf.1]
    rw [e1]
    cases hfin : containsString vm.Finalizers virtualMachineFinalizer with
    | false =>
      rw [Reconcile_deletion_nofinalizer w
        { vm with Status := ⟨RunningStatusPhase, "request completed", "", ""⟩ } rfl hdel hfin]
    | true =>
      rw [Reconcile_deletion_bare w
        { vm with Status := ⟨RunningStatusPhase, "request completed", "", ""⟩ }
        rfl hdel hfin rfl hstore]

theorem reconcile_twice_witness :
    (Reconcile refusedWorld (Reconcile refusedWorld freshRecord).stored).stored.Status =
      (Reconcile refusedWorld freshRecord).stored.Status ∧
    (Reconcile downWorld (Reconcile downWorld deletedRunningRecord).stored).stored.Status =
      (Reconcile downWorld deletedRunningRecord).stored.Status ∧
    createCount (Reconcile refusedWorld freshRecord).trace ≤ 1 :=
  have h := reconcile_twice refusedWorld freshRecord ⟨fun _ _ => rfl, fun _ => rfl⟩
  have h2 := reconcile_twice downWorld deletedRunningRecord ⟨fun _ _ => rfl, fun _ => rfl⟩
  ⟨h.1 (by decide) (Or.inr rfl), h2.1 (by decide) (Or.inr rfl), h.2.1.1⟩

/-! ### Where the mirror step runs -/

theorem mirrorWrites_app (a b : List Event) :
    mirrorWrites (a ++ b) = mirrorWrites a ++ mirrorWrites b := by
  unfold mirrorWrites
  exact List.filter_append a b

theorem mirrorWrites_cons (e : Event) (t : List Event) :
    mirrorWrites (e :: t) = if e.isMirrorWrite then e :: mirrorWrites t else mirrorWrites t := by
  unfold mirrorWrites
  cases h : e.isMirrorWrite <;> simp [List.filter, h]

theorem mirrorWrites_nil : mirrorWrites [] = [] := rfl

theorem mirrorWrites_registeredPass (vm : VirtualMachine) :
    mirrorWrites (registeredPass vm).trace = [] := by
  unfold registeredPass mirrorWrites
  simp only []
  split_ifs <;> rfl

theorem pollRequest_writes (w : World) (p : Pass) :
    mirrorWrites (pollRequest w p).trace = mirrorWrites p.trace := by
  cases hpoll : w.getRequestTracker p.vm.Status.ExternalRequestID with
  | error err =>
    rw [pollRequest_error w _ err hpoll]
    simp [returnStatusUpdate_trace, mirrorWrites_app, mirrorWrites_cons, mirrorWrites_nil,
      Pass.setStatus, Pass.log, Event.isMirrorWrite]
  | ok tracker =>
    obtain ⟨st, msg⟩ := tracker
    cases st with
    | none =>
      rw [pollRequest_nil w _ msg hpoll]
      simp [Pass.panicked, mirrorWrites_app, mirrorWrites_cons, mirrorWrites_nil, Pass.log,
        Event.isMirrorWrite]
    | some status =>
      rw [pollRequest_status w _ status msg hpoll]
      simp [returnStatusUpdate_trace, mirrorWrites_app, mirrorWrites_cons, mirrorWrites_nil,
        Pass.setStatus, Pass.log, Event.isMirrorWrite]

theorem handleDeletion_writes (w : World) (p : Pass) :
    mirrorWrites (handleDeletion w p).trace = mirrorWrites p.trace := by
  unfold handleDeletion
  split_ifs with hfin
  · unfold deleteExternalResources
    split_ifs with hreq hid
    · simp [hreq, Pass.returned]
    · cases hspec : p.vm.Spec.ID with
      | none => simp [Pass.panicked]
      | some id =>
        simp only []
        cases hcall : w.deleteMachine id with
        | error err => simp [Pass.returned, Pass.log, mirrorWrites_app, mirrorWrites_cons,
            mirrorWrites_nil, Event.isMirrorWrite]
        | ok answer =>
          cases answer with
          | none => simp [Pass.panicked, Pass.log, mirrorWrites_app, mirrorWrites_cons,
              mirrorWrites_nil, Event.isMirrorWrite]
          | some requestID =>
            simp only [Pass.StatusUpdate, Pass.setStatus, Pass.log, createStatus]
            cases w.statusUpdate _ with
            | some e => simp [errorsWrap, Pass.returned, mirrorWrites_app, mirrorWrites_cons,
                mirrorWrites_nil, Event.isMirrorWrite]
            | none =>
              simp only [errorsWrap]
              by_cases hempty : requestID = ""
              · simp only [hempty, if_true, Pass.Update, Pass.log]
                cases w.update UpdateSite.removeFinalizer _ <;>
                  simp [Pass.returned, mirrorWrites_app, mirrorWrites_cons,
                    mirrorWrites_nil, Event.isMirrorWrite]
              · simp [hempty, Pass.returned, mirrorWrites_app, mirrorWrites_cons,
                  mirrorWrites_nil, Event.isMirrorWrite]
    · simp only [Pass.StatusUpdate, Pass.log]
      cases w.statusUpdate p.vm with
      | some e => simp [errorsWrap, Pass.returned, mirrorWrites_app, mirrorWrites_cons,
          mirrorWrites_nil, Event.isMirrorWrite]
      | none =>
        simp only [errorsWrap]
        have hr : p.vm.Status.ExternalRequestID = "" := not_not.mp hreq
        simp only [hr, if_true, Pass.Update, Pass.log]
        cases w.update UpdateSite.removeFinalizer _ <;>
          simp [Pass.returned, mirrorWrites_app, mirrorWrites_cons, mirrorWrites_nil,
            Event.isMirrorWrite]
  · rfl

theorem createOrMirror_writes (w : World) (p : Pass)
    (hreq : p.vm.Status.ExternalRequestID = "") :
    mirrorWrites (createOrMirror w p false none).trace = mirrorWrites p.trace := by
  unfold createOrMirror
  simp only [Bool.not_false, if_true, hreq]
  cases w.createMachine p.vm with
  | error err =>
    simp [returnStatusUpdate_trace, mirrorWrites_app, mirrorWrites_cons, mirrorWrites_nil,
      Pass.setStatus, Pass.log, Event.isMirrorWrite]
  | ok answer =>
    cases answer with
    | none =>
      simp [Pass.panicked, mirrorWrites_app, mirrorWrites_cons, mirrorWrites_nil, Pass.log,
        Event.isMirrorWrite]
    | some requestID =>
      simp [returnStatusUpdate_trace, mirrorWrites_app, mirrorWrites_cons, mirrorWrites_nil,
        Pass.setStatus, Pass.log, Event.isMirrorWrite]

theorem mirrorMachine_writes (w : World) (p : Pass) (m : Machine) (id : String)
    (hid : m.ID = some id) :
    mirrorWrites (mirrorMachine w p (some m)).trace =
      mirrorWrites p.trace ++
        [Event.Update UpdateSite.mirrorSpec { p.vm with Spec := mirrorSpec p.vm.Spec m }
          (w.update UpdateSite.mirrorSpec
            { p.vm with Spec := mirrorSpec p.vm.Spec m }).isNone] := by
  rw [mirrorMachine_some w p m id hid, returnStatusUpdate_trace]
  simp [Pass.setStatus, Update_fst_trace, mirrorWrites_app, mirrorWrites_cons, mirrorWrites_nil,
    Event.isMirrorWrite]

theorem lookup_one (n : Int) (content : List (Option Machine))
    (hcount : n = (content.length : Int)) (hn0 : n ≠ 0) (hn1 : ¬ 1 < n) :
    n = 1 ∧ ∃ x, content = [x] := by
  have h1 : n = 1 := by omega
  refine ⟨h1, ?_⟩
  have h2 : content.length = 1 := by omega
  exact List.length_eq_one.mp h2

theorem returnStatusUpdate_not_panicked (w : World) (p : Pass) (r : Result) :
    (p.returnStatusUpdate w r).ret ≠ Ret.panicked := by
  rw [returnStatusUpdate_ret]
  intro h
  cases h

theorem syncMachine_writes (w : World) (p : Pass)
    (hreq : p.vm.Status.ExternalRequestID = "")
    (hcount : ∀ n content, w.getMachines (machineFilter p.vm.Name) = .ok ⟨n, content⟩ →
      n = (content.length : Int)) :
    mirrorWrites (syncMachine w p).trace = mirrorWrites p.trace ∨
    (∃ m id, w.getMachines (machineFilter p.vm.Name) = .ok ⟨1, [some m]⟩ ∧ m.ID = some id ∧
      mirrorWrites (syncMachine w p).trace =
        mirrorWrites p.trace ++
          [Event.Update UpdateSite.mirrorSpec { p.vm with Spec := mirrorSpec p.vm.Spec m }
            (w.update UpdateSite.mirrorSpec
              { p.vm with Spec := mirrorSpec p.vm.Spec m }).isNone]) := by
  cases hlook : w.getMachines (machineFilter p.vm.Name) with
  | error err =>
    left
    rw [syncMachine_error w p err hlook]
    simp [returnStatusUpdate_trace, Pass.setStatus, Pass.log, mirrorWrites_app,
      mirrorWrites_cons, mirrorWrites_nil, Event.isMirrorWrite]
  | ok machines =>
    obtain ⟨n, content⟩ := machines
    by_cases h0 : n = 0
    · left
      subst h0
      rw [syncMachine_zero w p content hlook, createOrMirror_writes w
        (p.log (Event.GetMachines (machineFilter p.vm.Name))) hreq]
      simp [Pass.log, mirrorWrites_app, mirrorWrites_cons, mirrorWrites_nil,
        Event.isMirrorWrite]
    · by_cases h1 : 1 < n
      · left
        rw [syncMachine_many w p n content hlook h1]
        simp [Pass.returned, Pass.log, mirrorWrites_app, mirrorWrites_cons,
          mirrorWrites_nil, Event.isMirrorWrite]
      · obtain ⟨hn, x, hx⟩ := lookup_one n content (hcount n content hlook) h0 h1
        subst hn
        subst hx
        by_cases hgood : ∃ m id, x = some m ∧ m.ID = some id
        · obtain ⟨m, id, hxm, hid⟩ := hgood
          subst hxm
          right
          refine ⟨m, id, rfl, hid, ?_⟩
          rw [syncMachine_found w p 1 m [] id hlook h0 h1 hid, mirrorMachine_writes w _ m id hid]
          simp [Pass.log, mirrorWrites_app, mirrorWrites_cons, mirrorWrites_nil,
            Event.isMirrorWrite]
        · left
          have hbad : ∀ m rest id, [x] = some m :: rest → m.ID ≠ some id := by
            intro m rest id hc hid
            injection hc with hc1 _
            exact hgood ⟨m, id, hc1, hid⟩
          rw [syncMachine_nohead w p 1 [x] hlook h0 h1 hbad]
          simp [Pass.panicked, Pass.log, mirrorWrites_app, mirrorWrites_cons,
            mirrorWrites_nil, Event.isMirrorWrite]

theorem syncMachine_panic (w : World) (p : Pass)
    (hreq : p.vm.Status.ExternalRequestID = "")
    (hcount : ∀ n content, w.getMachines (machineFilter p.vm.Name) = .ok ⟨n, content⟩ →
      n = (content.length : Int))
    (hpanic : (syncMachine w p).ret = Ret.panicked) :
    (∃ content, w.getMachines (machineFilter p.vm.Name) = .ok ⟨0, content⟩ ∧
      w.createMachine p.vm = .ok none) ∨
    w.getMachines (machineFilter p.vm.Name) = .ok ⟨1, [none]⟩ ∨
    (∃ m, w.getMachines (machineFilter p.vm.Name) = .ok ⟨1, [some m]⟩ ∧ m.ID = none) := by
  cases hlook : w.getMachines (machineFilter p.vm.Name) with
  | error err =>
    rw [syncMachine_error w p err hlook] at hpanic
    exact absurd hpanic (returnStatusUpdate_not_panicked w _ _)
  | ok machines =>
    obtain ⟨n, content⟩ := machines
    by_cases h0 : n = 0
    · left
      subst h0
      refine ⟨content, rfl, ?_⟩
      rw [syncMachine_zero w p content hlook] at hpanic
      have hreq1 : (p.log (Event.GetMachines
          (machineFilter p.vm.Name))).vm.Status.ExternalRequestID = "" := hreq
      cases hcreate : w.createMachine p.vm with
      | error err =>
        rw [createOrMirror_failed w _ err hreq1 hcreate] at hpanic
        exact absurd hpanic (returnStatusUpdate_not_panicked w _ _)
      | ok answer =>
        cases answer with
        | none => rfl
        | some requestID =>
          rw [createOrMirror_accepted w _ requestID hreq1 hcreate] at hpanic
          exact absurd hpanic (returnStatusUpdate_not_panicked w _ _)
    · by_cases h1 : 1 < n
      · rw [syncMachine_many w p n content hlook h1] at hpanic
        cases hpanic
      · obtain ⟨hn, x, hx⟩ := lookup_one n content (hcount n content hlook) h0 h1
        subst hn
        subst hx
        right
        cases x with
        | none => exact Or.inl rfl
        | some m =>
          right
          refine ⟨m, rfl, ?_⟩
          cases hid : m.ID with
          | none => rfl
          | some id =>
            rw [syncMachine_found w p 1 m [] id hlook h0 h1 hid,
              mirrorMachine_some w _ m id hid] at hpanic
            exact absurd hpanic (returnStatusUpdate_not_panicked w _ _)

theorem pollRequest_panic (w : World) (p : Pass)
    (hpanic : (pollRequest w p).ret = Ret.panicked) :
    ∃ m, w.getRequestTracker p.vm.Status.ExternalRequestID = .ok ⟨none, m⟩ := by
  cases hpoll : w.getRequestTracker p.vm.Status.ExternalRequestID with
  | error err =>
    rw [pollRequest_error w _ err hpoll] at hpanic
    exact absurd hpanic (returnStatusUpdate_not_panicked w _ _)
  | ok tracker =>
    obtain ⟨st, msg⟩ := tracker
    cases st with
    | none => exact ⟨msg, rfl⟩
    | some status =>
      rw [pollRequest_status w _ status msg hpoll] at hpanic
      exact absurd hpanic (returnStatusUpdate_not_panicked w _ _)

theorem handleDeletion_panic (w : World) (p : Pass)
    (hpanic : (handleDeletion w p).ret = Ret.panicked) :
    containsString p.vm.Finalizers virtualMachineFinalizer = true ∧
    p.vm.Status.ExternalID ≠ "" ∧
    (p.vm.Spec.ID = none ∨ ∃ id, p.vm.Spec.ID = some id ∧ w.deleteMachine id = .ok none) := by
  unfold handleDeletion at hpanic
  split_ifs at hpanic with hfin
  · unfold deleteExternalResources at hpanic
    split_ifs at hpanic with hreq hid
    · simp [hreq, Pass.returned] at hpanic
    · refine ⟨hfin, hid, ?_⟩
      cases hspec : p.vm.Spec.ID with
      | none => exact Or.inl rfl
      | some id =>
        right
        refine ⟨id, rfl, ?_⟩
        simp only [hspec] at hpanic
        cases hcall : w.deleteMachine id with
        | error err => simp [hcall, Pass.returned] at hpanic
        | ok answer =>
          cases answer with
          | none => rfl
          | some requestID =>
            exfalso
            simp only [hcall, Pass.StatusUpdate, Pass.setStatus, Pass.log, createStatus]
              at hpanic
            cases hsu : w.statusUpdate
                { p.vm with Status :=
                  ⟨PendingStatusPhase, "deleting Virtual Machine", requestID,
                    p.vm.Status.ExternalID⟩ } with
            | some e => simp [hsu, errorsWrap, Pass.returned] at hpanic
            | none =>
              simp only [hsu, errorsWrap] at hpanic
              by_cases hempty : requestID = ""
              · simp only [hempty, if_true, Pass.Update, Pass.log] at hpanic
                cases hup : w.update UpdateSite.removeFinalizer
                    { p.vm with
                      Finalizers := removeString p.vm.Finalizers virtualMachineFinalizer
                      Status := ⟨PendingStatusPhase, "deleting Virtual Machine", "",
                        p.vm.Status.ExternalID⟩ } <;>
                  simp [hup, Pass.returned] at hpanic
              · simp [hempty, Pass.returned] at hpanic
    · exfalso
      simp only [Pass.StatusUpdate, Pass.log] at hpanic
      cases hsu : w.statusUpdate p.vm with
      | some e => simp [hsu, errorsWrap, Pass.returned] at hpanic
      | none =>
        simp only [hsu, errorsWrap] at hpanic
        have hr : p.vm.Status.ExternalRequestID = "" := not_not.mp hreq
        simp only [hr, if_true, Pass.Update, Pass.log] at hpanic
        cases hup : w.update UpdateSite.removeFinalizer
            { p.vm with Finalizers := removeString p.vm.Finalizers virtualMachineFinalizer } <;>
          simp [hup, Pass.returned] at hpanic
  · simp [Pass.returned] at hpanic

theorem Reconcile_writes (w : World) (vm : VirtualMachine)
    (hcount : ∀ n content, w.getMachines (machineFilter vm.Name) = .ok ⟨n, content⟩ →
      n = (content.length : Int)) :
    mirrorWrites (Reconcile w vm).trace = [] ∨
    (∃ m id, w.getMachines (machineFilter vm.Name) = .ok ⟨1, [some m]⟩ ∧ m.ID = some id ∧
      vm.Status.ExternalRequestID = "" ∧ IsZero vm.DeletionTimestamp = true ∧
      mirrorWrites (Reconcile w vm).trace =
        [Event.Update UpdateSite.mirrorSpec
          { registered vm with Spec := mirrorSpec vm.Spec m }
          (w.update UpdateSite.mirrorSpec
            { registered vm with Spec := mirrorSpec vm.Spec m }).isNone]) := by
  by_cases hreq : vm.Status.ExternalRequestID = ""
  · cases hdel : IsZero vm.DeletionTimestamp with
    | false =>
      left
      rw [Reconcile_deletion w vm hreq hdel, handleDeletion_writes]
      rfl
    | true =>
      rcases Reconcile_sync_cases w vm hreq hdel with ⟨err, _, _, hrun⟩ | ⟨_, hrun⟩
      · left
        rw [hrun]
        rfl
      · rw [hrun]
        have hreq1 : (registeredPass vm).vm.Status.ExternalRequestID = "" := by
          show (registered vm).Status.ExternalRequestID = ""
          rw [registered_Status]
          exact hreq
        have hcount1 : ∀ n content,
            w.getMachines (machineFilter (registeredPass vm).vm.Name) = .ok ⟨n, content⟩ →
            n = (content.length : Int) := by
          rw [registeredPass_Name]
          exact hcount
        rcases syncMachine_writes w (registeredPass vm) hreq1 hcount1 with
          h | ⟨m, id, h1, h2, h3⟩
        · left
          rw [h, mirrorWrites_registeredPass]
        · right
          rw [registeredPass_Name] at h1
          refine ⟨m, id, h1, h2, hreq, rfl, ?_⟩
          rw [h3, mirrorWrites_registeredPass]
          have hv : (registeredPass vm).vm = registered vm := rfl
          rw [hv, registered_Spec]
          rfl
  · left
    rw [Reconcile_poll w vm hreq, pollRequest_writes]
    rfl

theorem Reconcile_panic (w : World) (vm : VirtualMachine)
    (hcount : ∀ n content, w.getMachines (machineFilter vm.Name) = .ok ⟨n, content⟩ →
      n = (content.length : Int))
    (hpanic : (Reconcile w vm).ret = Ret.panicked) :
    (vm.Status.ExternalRequestID ≠ "" ∧
      ∃ m, w.getRequestTracker vm.Status.ExternalRequestID = .ok ⟨none, m⟩) ∨
    (vm.Status.ExternalRequestID = "" ∧ IsZero vm.DeletionTimestamp = false ∧
      containsString vm.Finalizers virtualMachineFinalizer = true ∧
      vm.Status.ExternalID ≠ "" ∧
      (vm.Spec.ID = none ∨ ∃ id, vm.Spec.ID = some id ∧ w.deleteMachine id = .ok none)) ∨
    (vm.Status.ExternalRequestID = "" ∧ IsZero vm.DeletionTimestamp = true ∧
      ((∃ content, w.getMachines (machineFilter vm.Name) = .ok ⟨0, content⟩ ∧
          w.createMachine (registered vm) = .ok none) ∨
        w.getMachines (machineFilter vm.Name) = .ok ⟨1, [none]⟩ ∨
        (∃ m, w.getMachines (machineFilter vm.Name) = .ok ⟨1, [some m]⟩ ∧ m.ID = none))) := by
  by_cases hreq : vm.Status.ExternalRequestID = ""
  · right
    cases hdel : IsZero vm.DeletionTimestamp with
    | false =>
      left
      rw [Reconcile_deletion w vm hreq hdel] at hpanic
      exact ⟨hreq, rfl, handleDeletion_panic w _ hpanic⟩
    | true =>
      right
      refine ⟨hreq, rfl, ?_⟩
      rcases Reconcile_sync_cases w vm hreq hdel with ⟨err, _, _, hrun⟩ | ⟨_, hrun⟩
      · rw [hrun] at hpanic
        cases hpanic
      · rw [hrun] at hpanic
        have hreq1 : (registeredPass vm).vm.Status.ExternalRequestID = "" := by
          show (registered vm).Status.ExternalRequestID = ""
          rw [registered_Status]
          exact hreq
        have hcount1 : ∀ n content,
            w.getMachines (machineFilter (registeredPass vm).vm.Name) = .ok ⟨n, content⟩ →
            n = (content.length : Int) := by
          rw [registeredPass_Name]
          exact hcount
        have h := syncMachine_panic w (registeredPass vm) hreq1 hcount1 hpanic
        rw [registeredPass_Name] at h
        exact h
  · left
    rw [Reconcile_poll w vm hreq] at hpanic
    exact ⟨hreq, pollRequest_panic w _ hpanic⟩

/-! ### C14 -/

/-- C14: for every record and every world in which the lookup's element count
equals the length of its content list, the mirror step never runs without a
machine.  (1) A pass makes the write of line 221, the mark of the mirror step,
at most once, and only when the lookup returned exactly one machine, which has
an identifier; that pass had no request id and no deletion signal.  (2) When
the lookup is made and returns zero matches, `externalRequestID` is empty, the
pass submits the create (it returns from the create branch) and makes no
mirror write, and it panics only if the create answer carries a nil id.
(3) Whenever a pass panics, a nil pointer in an answer or in `Spec.ID` is the
cause (the tracker status, `Spec.ID` or the delete answer's id under deletion,
the create answer's id, the single content element or its id), never a
missing machine at the mirror step. -/
theorem mirror_step_safe (w : World) (vm : VirtualMachine)
    (hcount : ∀ n content, w.getMachines (machineFilter vm.Name) = .ok ⟨n, content⟩ →
      n = (content.length : Int)) :
    (mirrorWrites (Reconcile w vm).trace = [] ∨
      ∃ m id, w.getMachines (machineFilter vm.Name) = .ok ⟨1, [some m]⟩ ∧ m.ID = some id ∧
        vm.Status.ExternalRequestID = "" ∧ IsZero vm.DeletionTimestamp = true ∧
        mirrorWrites (Reconcile w vm).trace =
          [Event.Update UpdateSite.mirrorSpec
            { registered vm with Spec := mirrorSpec vm.Spec m }
            (w.update UpdateSite.mirrorSpec
              { registered vm with Spec := mirrorSpec vm.Spec m }).isNone]) ∧
    (∀ content, Event.GetMachines (machineFilter vm.Name) ∈ (Reconcile w vm).trace →
      w.getMachines (machineFilter vm.Name) = .ok ⟨0, content⟩ →
      vm.Status.ExternalRequestID = "" ∧
      Event.CreateMachine (registered vm) ∈ (Reconcile w vm).trace ∧
      mirrorWrites (Reconcile w vm).trace = [] ∧
      ((Reconcile w vm).ret = Ret.panicked → w.createMachine (registered vm) = .ok none)) ∧
    ((Reconcile w vm).ret = Ret.panicked →
      (vm.Status.ExternalRequestID ≠ "" ∧
        ∃ m, w.getRequestTracker vm.Status.ExternalRequestID = .ok ⟨none, m⟩) ∨
      (vm.Status.ExternalRequestID = "" ∧ IsZero vm.DeletionTimestamp = false ∧
        containsString vm.Finalizers virtualMachineFinalizer = true ∧
        vm.Status.ExternalID ≠ "" ∧
        (vm.Spec.ID = none ∨ ∃ id, vm.Spec.ID = some id ∧ w.deleteMachine id = .ok none)) ∨
      (vm.Status.ExternalRequestID = "" ∧ IsZero vm.DeletionTimestamp = true ∧
        ((∃ content, w.getMachines (machineFilter vm.Name) = .ok ⟨0, content⟩ ∧
            w.createMachine (registered vm) = .ok none) ∨
          w.getMachines (machineFilter vm.Name) = .ok ⟨1, [none]⟩ ∨
          (∃ m, w.getMachines (machineFilter vm.Name) = .ok ⟨1, [some m]⟩ ∧
            m.ID = none)))) := by
  refine ⟨Reconcile_writes w vm hcount, ?_, Reconcile_panic w vm hcount⟩
  intro content hmem hzero
  have hmem1 : Event.GetMachines (machineFilter vm.Name) ∈
      externalCalls (Reconcile w vm).trace := by
    unfold externalCalls
    exact List.mem_filter.mpr ⟨hmem, rfl⟩
  have hwrites : mirrorWrites (Reconcile w vm).trace = [] := by
    rcases Reconcile_writes w vm hcount with h | ⟨m, id, h1, _⟩
    · exact h
    · rw [hzero] at h1
      injection h1 with h1
      injection h1 with h2 _
      exact absurd h2 (by decide)
  rcases Reconcile_calls w vm with ⟨_, h⟩ | ⟨_, _, h | ⟨id, _, _, _, h⟩⟩ |
    ⟨hreq, hdel, h | ⟨hnz, _⟩ | ⟨c, hc, h⟩⟩
  · rw [h] at hmem1
    simp at hmem1
  · rw [h] at hmem1
    simp at hmem1
  · rw [h] at hmem1
    simp at hmem1
  · rw [h] at hmem1
    simp at hmem1
  · exact absurd hzero (hnz content)
  · refine ⟨hreq, ?_, hwrites, ?_⟩
    · have hin : Event.CreateMachine (registered vm) ∈
          externalCalls (Reconcile w vm).trace := by
        rw [h]
        simp
      unfold externalCalls at hin
      exact (List.mem_filter.mp hin).1
    · intro hpanic
      rcases Reconcile_panic w vm hcount hpanic with ⟨hne, _⟩ | ⟨_, hd, _⟩ |
        ⟨_, _, ⟨_, _, hcr⟩ | h1 | ⟨m, h1, _⟩⟩
      · exact absurd hreq hne
      · rw [hdel] at hd
        cases hd
      · exact hcr
      · rw [hzero] at h1
        injection h1 with h1
        injection h1 with h2 _
        exact absurd h2 (by decide)
      · rw [hzero] at h1
        injection h1 with h1
        injection h1 with h2 _
        exact absurd h2 (by decide)

theorem mirror_step_safe_witness :
    (mirrorWrites (Reconcile finishedWorld runningRecord).trace = [] ∨
      ∃ m id, finishedWorld.getMachines (machineFilter runningRecord.Name) =
          .ok ⟨1, [some m]⟩ ∧ m.ID = some id ∧
        runningRecord.Status.ExternalRequestID = "" ∧
        IsZero runningRecord.DeletionTimestamp = true ∧
        mirrorWrites (Reconcile finishedWorld runningRecord).trace =
          [Event.Update UpdateSite.mirrorSpec
            { registered runningRecord with Spec := mirrorSpec runningRecord.Spec m }
            (finishedWorld.update UpdateSite.mirrorSpec
              { registered runningRecord with
                Spec := mirrorSpec runningRecord.Spec m }).isNone]) :=
  (mirror_step_safe finishedWorld runningRecord (fun n content h => by
    injection h with h1
    injection h1 with h2 h3
    subst h2
    subst h3
    rfl)).1

end VraCrd
